import Mathlib

/-!
Shallow embedding of `src/semantic/semantic.py` from the TONTO compiler:
the symbol-table builder, the six ontology-design-pattern checkers, the
orchestrator `run_semantic_checks` and the diagnostic-partitioning part of
`format_unified_output`.

Python dictionaries keyed by class names are modelled as association lists
with insertion-order update semantics (`upsert`, `appendAt`); Python sets,
which the source only uses for membership, subset tests, cardinality and
sorted output, are modelled as deduplicated lists (`pyset`); Python string
truthiness in `x or y` chains is modelled by `orS` / `orI` / `orL`.
A dictionary subscript `d[k]` on input data (which raises `KeyError` when
the key is absent) is modelled in the `Except String` monad; the only such
subscripts reachable from input data are `sk["name"]` in the Subkind
checker and `p["name"]` in the Phase checker.
-/

namespace Tonto

/-- Python `f"{x}"` applied to an optional string: `None` renders as "None". -/
def pyStr : Option String → String
  | none => "None"
  | some s => s

/-- Python `x or y` where `x` is an optional string (both `None` and `""` are falsy). -/
def orS (a b : Option String) : Option String :=
  match a with
  | none => b
  | some s => if s = "" then b else some s

/-- Python `x or y` where `x` is an optional integer (both `None` and `0` are falsy). -/
def orI (a b : Option Int) : Option Int :=
  match a with
  | none => b
  | some n => if n = 0 then b else some n

/-- Python `x or y` on lists (an empty list is falsy). -/
def orL (a b : List α) : List α :=
  if a.isEmpty then b else a

/-- Python `d.get(k, fallback)` when the value is itself optional. -/
def orO (a b : Option α) : Option α :=
  match a with
  | none => b
  | some x => some x

/-- Association-list lookup, mirroring Python `d.get(k)` / `k in d`. -/
def alookup [DecidableEq κ] (k : κ) : List (κ × α) → Option α
  | [] => none
  | (k', v) :: rest => if k' = k then some v else alookup k rest

/-- Python `d.get(k, dflt)`. -/
def lookupD [DecidableEq κ] (k : κ) (m : List (κ × α)) (dflt : α) : α :=
  (alookup k m).getD dflt

/-- Python `d[k] = v`: replaces the value in place when the key exists,
appends a new entry otherwise (dictionaries keep first-insertion order). -/
def upsert [DecidableEq κ] (k : κ) (v : α) : List (κ × α) → List (κ × α)
  | [] => [(k, v)]
  | (k', v') :: rest => if k' = k then (k, v) :: rest else (k', v') :: upsert k v rest

/-- Python `defaultdict(list)`: `m[k].append(v)`. -/
def appendAt [DecidableEq κ] (k : κ) (v : α) : List (κ × List α) → List (κ × List α)
  | [] => [(k, [v])]
  | (k', vs) :: rest => if k' = k then (k', vs ++ [v]) :: rest else (k', vs) :: appendAt k v rest

/-- Python `set(l)`: the source only uses membership, subset, `len` and
`sorted` on its sets, all order-insensitive, so a deduplicated list is a
faithful model. -/
def pyset [DecidableEq α] (l : List α) : List α :=
  l.dedup

/-- Code-point lexicographic comparison on character lists (Python string order). -/
def charListLe : List Char → List Char → Bool
  | [], _ => true
  | _ :: _, [] => false
  | a :: as, b :: bs =>
    if a.val < b.val then true
    else if b.val < a.val then false
    else charListLe as bs

/-- Python string comparison `a <= b`. -/
def strLe (a b : String) : Bool :=
  charListLe a.toList b.toList

/-- Insert a string into an already sorted list. -/
def insertSorted (s : String) : List String → List String
  | [] => [s]
  | x :: xs => if strLe s x then s :: x :: xs else x :: insertSorted s xs

/-- Python `sorted` on a list of strings (code-point lexicographic). -/
def pysorted (l : List String) : List String :=
  l.foldr insertSorted []

/-- Python `s.lower()` (per-character lowering, as `String.toLower` computes). -/
def pyLower (s : String) : String :=
  String.mk (s.data.map Char.toLower)

/-- Python `s.startswith(pre)`. -/
def strStartsWith (s pre : String) : Bool :=
  pre.toList.isPrefixOf s.toList

/-- Python `needle in hay` on strings: substring containment. -/
def strHas (hay needle : String) : Bool :=
  (List.range (hay.toList.length + 1)).any
    (fun i => needle.toList.isPrefixOf (hay.toList.drop i))

/-- `itertools.combinations(l, 2)` in the same order. -/
def combinations2 : List α → List (α × α)
  | [] => []
  | x :: rest => rest.map (fun y => (x, y)) ++ combinations2 rest

/-- Python `{a, b} == {c, d}` (set equality of two two-element displays). -/
def setEq2 [DecidableEq α] (a b c d : α) : Bool :=
  let s1 := pyset [a, b]
  let s2 := pyset [c, d]
  s1.all (fun x => s2.contains x) && s2.all (fun x => s1.contains x)

/-- A member inside a class body (relation pole / internal relation). -/
structure Member where
  stereotype : Option String := none
  name : Option String := none
  target : Option String := none
  target_class : Option String := none
  targetClass : Option String := none
  deriving DecidableEq, Repr

/-- A class body: the checkers probe `body.get("relations")` then `body.get("members")`. -/
structure Body where
  relations : Option (List Member) := none
  members : Option (List Member) := none
  deriving DecidableEq, Repr

instance : Inhabited Body := ⟨{}⟩

/-- A top-level declaration (Python: a dict with a `type` discriminator).
`none` in a field models an absent key. -/
structure Decl where
  type : Option String := none
  name : Option String := none
  stereotype : Option String := none
  specializes : Option (List String) := none
  modifiers : Option (List String) := none
  general : Option String := none
  specifics : Option (List String) := none
  lineno : Option Int := none
  body : Option Body := none
  relation_type : Option String := none
  relation_name : Option String := none
  source_class : Option String := none
  target_class : Option String := none
  target1 : Option String := none
  target2 : Option String := none
  target_a : Option String := none
  target_b : Option String := none
  end1 : Option String := none
  end2 : Option String := none
  deriving DecidableEq, Repr

/-- The parsed model: Python `ast.get("declarations", [])`. -/
structure Ast where
  declarations : Option (List Decl) := none
  deriving DecidableEq, Repr

/-- A found-pattern record (union of the keys the six checkers emit). -/
structure Found where
  pattern : String
  kind : Option String := none
  subkinds : Option (List String) := none
  roles : Option (List (Option String)) := none
  phases : Option (List String) := none
  genset_name : Option String := none
  is_complete : Option Bool := none
  is_disjoint : Option Bool := none
  relator_name : Option String := none
  material_relation : Option String := none
  mode_name : Option String := none
  characterizes : Option String := none
  depends_on : Option String := none
  rolemixin : Option String := none
  roles_grouped : Option (List String) := none
  lineno : Option Int := none
  deriving DecidableEq, Repr

/-- A diagnostic record: every checker emits `type`, `pattern`, `message`, `lineno`. -/
structure Err where
  type : String
  pattern : String
  message : String
  lineno : Option Int := none
  deriving DecidableEq, Repr

/-- The shared symbol table (`build_symbol_table`): keys stored there passed
the Python truthiness guards `if name:` / `if stereo:`, hence plain strings. -/
structure Table where
  classes_by_stereotype : List (String × List (String × Decl)) := []
  classes : List (String × Decl) := []
  gensets : List Decl := []
  specializes_map : List (String × List String) := []
  deriving DecidableEq, Repr

/-- Python truthiness of an optional string (`None` and `""` are falsy). -/
def truthyS : Option String → Option String
  | none => none
  | some s => if s = "" then none else some s

/-- One step of the `build_symbol_table` loop over declarations. -/
def buildStep (t : Table) (decl : Decl) : Table :=
  if decl.type = some "ClassDeclaration" then
    match truthyS decl.name with
    | none => t
    | some n =>
      let t1 := { t with classes := upsert n decl t.classes }
      let t2 :=
        match truthyS decl.stereotype with
        | none => t1
        | some st =>
          { t1 with classes_by_stereotype :=
              upsert st (upsert n decl (lookupD st t1.classes_by_stereotype [])) t1.classes_by_stereotype }
      { t2 with specializes_map :=
          (decl.specializes.getD []).foldl (fun m sup => appendAt sup n m) t2.specializes_map }
  else if decl.type = some "GeneralizationSet" then
    { t with gensets := t.gensets ++ [decl] }
  else t

/-- `build_symbol_table(ast)`. -/
def buildSymbolTable (ast : Ast) : Table :=
  (ast.declarations.getD []).foldl buildStep {}

/-- Lookup with an optional key: the maps built with Python-truthy string keys
never contain `None` or `""`, so those keys always miss. -/
def olookupD (k : Option String) (m : List (String × α)) (dflt : α) : α :=
  match k with
  | some s => lookupD s m dflt
  | none => dflt

/-- Python `d["name"]`: raises `KeyError` when the key is absent. -/
def getName (d : Decl) : Except String String :=
  match d.name with
  | some n => .ok n
  | none => .error "KeyError: name"

/-- `[sk["name"] for sk in decls]`: raises at the first nameless declaration. -/
def getNames : List Decl → Except String (List String)
  | [] => .ok []
  | d :: ds => do
    let n ← getName d
    let ns ← getNames ds
    .ok (n :: ns)

/-- Concatenate per-item `(found, errors)` outputs in order. -/
def concatPairs (l : List (List Found × List Err)) : List Found × List Err :=
  l.foldr (fun p acc => (p.1 ++ acc.1, p.2 ++ acc.2)) ([], [])

/-- Run a fallible per-item checker body over a list, concatenating outputs
in order; an exception propagates exactly as in the Python loop. -/
def exceptMapAll (f : α → Except String (List Found × List Err)) :
    List α → Except String (List Found × List Err)
  | [] => .ok ([], [])
  | x :: xs => do
    let p ← f x
    let rest ← exceptMapAll f xs
    .ok (p.1 ++ rest.1, p.2 ++ rest.2)

/-- Local collection pass shared in shape by the Subkind and Phase checkers:
kind map, map of the second stereotype, a local specialization map and the
gensets grouped by (truthy) general. -/
structure LocalInfo where
  kinds : List (Option String × Decl) := []
  stereoClasses : List (Option String × Decl) := []
  specMap : List (String × List (Option String)) := []
  gensetsByGeneral : List (String × List Decl) := []
  deriving Repr

/-- One declaration step of the local collection loop (`stereo` is the second
stereotype collected: "subkind" for the Subkind checker, "phase" for Phase). -/
def localCollectStep (stereo : String) (i : LocalInfo) (decl : Decl) : LocalInfo :=
  if decl.type = some "ClassDeclaration" then
    let i1 :=
      if decl.stereotype = some "kind" then
        { i with kinds := upsert decl.name decl i.kinds }
      else if decl.stereotype = some stereo then
        { i with stereoClasses := upsert decl.name decl i.stereoClasses }
      else i
    { i1 with specMap :=
        (decl.specializes.getD []).foldl (fun m sup => appendAt sup decl.name m) i1.specMap }
  else if decl.type = some "GeneralizationSet" then
    match truthyS decl.general with
    | some g => { i with gensetsByGeneral := appendAt g decl i.gensetsByGeneral }
    | none => i
  else i

/-- The collection loop of `check_subkind_pattern` / `check_phase_pattern`. -/
def localCollect (stereo : String) (decls : List Decl) : LocalInfo :=
  decls.foldl (localCollectStep stereo) {}

/-- The mandatory-disjoint violation emitted by `check_subkind_pattern`. -/
def subkindViolErr (gsName : String) (kindName : Option String) (lineno : Option Int) : Err :=
  { type := "Semantic Error (Mandatory Constraint - Coerção)"
    pattern := "Subkind Pattern"
    message := "O Genset '" ++ gsName ++ "' que especializa a Kind '" ++ pyStr kindName ++
      "' com Subkinds DEVE ser declarado como 'disjoint'."
    lineno := lineno }

/-- The genset loop of `check_subkind_pattern` for one Kind (`break` on the
first valid genset becomes returning without recursing). -/
def subkindGensetLoop (kindName : Option String) (kindLineno : Option Int)
    (actualSubs : List Decl) (allSubNames : List (Option String)) :
    List Decl → Except String (List Found × List Err)
  | [] => .ok ([], [])
  | gs :: rest =>
    let gsName := gs.name.getD "N/A"
    let modifiers := pyset (gs.modifiers.getD [])
    let specifics := pyset (gs.specifics.getD [])
    let linenoPattern := orO gs.lineno kindLineno
    if ¬ (specifics.all (fun s => allSubNames.contains (some s))) then
      subkindGensetLoop kindName kindLineno actualSubs allSubNames rest
    else if ¬ modifiers.contains "disjoint" then do
      let (f, e) ← subkindGensetLoop kindName kindLineno actualSubs allSubNames rest
      .ok (f, subkindViolErr gsName kindName linenoPattern :: e)
    else do
      let names ← getNames actualSubs
      let actualNames := pyset names
      if actualNames.all (fun n => specifics.contains n) then
        .ok ([{ pattern := "Subkind Pattern", kind := kindName
                subkinds := some (pysorted actualNames)
                genset_name := some gsName
                is_complete := some (modifiers.contains "complete")
                lineno := linenoPattern }], [])
      else
        subkindGensetLoop kindName kindLineno actualSubs allSubNames rest

/-- The per-Kind body of `check_subkind_pattern`. -/
def subkindKindStep (info : LocalInfo) (entry : Option String × Decl) :
    Except String (List Found × List Err) :=
  let allSubNames := info.stereoClasses.map (fun p => p.1)
  let actualSubs := (olookupD entry.1 info.specMap []).filterMap
      (fun n => if allSubNames.contains n then alookup n info.stereoClasses else none)
  if actualSubs.length < 2 then .ok ([], [])
  else subkindGensetLoop entry.1 entry.2.lineno actualSubs allSubNames
         (olookupD entry.1 info.gensetsByGeneral [])

/-- `check_subkind_pattern(ast, table)` (the table argument is unused in the source). -/
def checkSubkindPattern (ast : Ast) (_table : Table) : Except String (List Found × List Err) :=
  let info := localCollect "subkind" (ast.declarations.getD [])
  exceptMapAll (subkindKindStep info) info.kinds

/-- The mandatory-disjoint violation emitted by `check_phase_pattern`. -/
def phaseViolErr (gsName : String) (kindName : Option String) (lineno : Option Int) : Err :=
  { type := "Semantic Error (Mandatory Constraint - Coerção)"
    pattern := "Phase Pattern"
    message := "O Genset '" ++ gsName ++ "' que especializa a Kind '" ++ pyStr kindName ++
      "' com Phases DEVE ser declarado como 'disjoint'."
    lineno := lineno }

/-- The genset loop of `check_phase_pattern` for one Kind. -/
def phaseGensetLoop (kindName : Option String) (kindLineno : Option Int)
    (actualPhases : List Decl) (allPhaseNames : List (Option String)) :
    List Decl → Except String (List Found × List Err)
  | [] => .ok ([], [])
  | gs :: rest =>
    let gsName := gs.name.getD "N/A"
    let modifiers := pyset (gs.modifiers.getD [])
    let specifics := pyset (gs.specifics.getD [])
    let linenoPattern := orO gs.lineno kindLineno
    if ¬ (specifics.all (fun s => allPhaseNames.contains (some s))) then
      phaseGensetLoop kindName kindLineno actualPhases allPhaseNames rest
    else if ¬ modifiers.contains "disjoint" then do
      let (f, e) ← phaseGensetLoop kindName kindLineno actualPhases allPhaseNames rest
      .ok (f, phaseViolErr gsName kindName linenoPattern :: e)
    else do
      let names ← getNames actualPhases
      let actualNames := pyset names
      if 2 ≤ specifics.length ∧ actualNames.all (fun n => specifics.contains n) then
        .ok ([{ pattern := "Phase Pattern", kind := kindName
                phases := some (pysorted actualNames)
                is_disjoint := some true
                is_complete := some (modifiers.contains "complete")
                lineno := linenoPattern }], [])
      else
        phaseGensetLoop kindName kindLineno actualPhases allPhaseNames rest

/-- The per-Kind body of `check_phase_pattern`. -/
def phaseKindStep (info : LocalInfo) (entry : Option String × Decl) :
    Except String (List Found × List Err) :=
  let allPhaseNames := info.stereoClasses.map (fun p => p.1)
  let actualPhases := (olookupD entry.1 info.specMap []).filterMap
      (fun n => if allPhaseNames.contains n then alookup n info.stereoClasses else none)
  if actualPhases.length < 2 then .ok ([], [])
  else phaseGensetLoop entry.1 entry.2.lineno actualPhases allPhaseNames
         (olookupD entry.1 info.gensetsByGeneral [])

/-- `check_phase_pattern(ast, table)` (the table argument is unused in the source). -/
def checkPhasePattern (ast : Ast) (_table : Table) : Except String (List Found × List Err) :=
  let info := localCollect "phase" (ast.declarations.getD [])
  exceptMapAll (phaseKindStep info) info.kinds

/-- The disjoint-forbidden coercion violation emitted by `check_role_pattern`. -/
def roleViolErr (gsName kindName : String) (lineno : Option Int) : Err :=
  { type := "Semantic Error (Coercion Conflict)"
    pattern := "Role Pattern"
    message := "ERRO POR COERÇÃO: O Genset '" ++ gsName ++ "' que especializa a Kind '" ++
      kindName ++ "' com Roles não deve ser declarado como 'disjoint'."
    lineno := lineno }

/-- The genset loop of `check_role_pattern` for one Kind: the violation for a
disjoint genset does not suppress the found record. -/
def roleGensetLoop (kindName : String) (kindLineno : Option Int)
    (roleNames : List String) (allRoleNames : List String) :
    List Decl → List Found × List Err
  | [] => ([], [])
  | gs :: rest =>
    let gsName := gs.name.getD "N/A"
    let gsMod := pyset (gs.modifiers.getD [])
    let gsSpecs := pyset (gs.specifics.getD [])
    if gsSpecs.isEmpty then
      roleGensetLoop kindName kindLineno roleNames allRoleNames rest
    else if ¬ gsSpecs.all (fun s => allRoleNames.contains s) then
      roleGensetLoop kindName kindLineno roleNames allRoleNames rest
    else
      let linenoPattern := orO gs.lineno kindLineno
      let errsHere :=
        if gsMod.contains "disjoint" then [roleViolErr gsName kindName linenoPattern] else []
      let actualRoles := pyset roleNames
      if 2 ≤ gsSpecs.length ∧ ¬ actualRoles.isEmpty ∧
          actualRoles.all (fun r => gsSpecs.contains r) then
        ([{ pattern := "Role Pattern", kind := some kindName
            roles := some ((pysorted actualRoles).map some)
            genset_name := some gsName
            is_complete := some (gsMod.contains "complete")
            lineno := linenoPattern }], errsHere)
      else
        let (f, e) := roleGensetLoop kindName kindLineno roleNames allRoleNames rest
        (f, errsHere ++ e)

/-- `check_role_pattern(ast, table)`: works entirely off the symbol table. -/
def checkRolePattern (_ast : Ast) (table : Table) : List Found × List Err :=
  let kinds := lookupD "kind" table.classes_by_stereotype []
  let roles := lookupD "role" table.classes_by_stereotype []
  let allRoleNames := roles.map (fun p => p.1)
  concatPairs (kinds.map (fun entry =>
    let roleNames := (lookupD entry.1 table.specializes_map []).filter
        (fun n => allRoleNames.contains n)
    if roleNames.length < 2 then ([], [])
    else roleGensetLoop entry.1 entry.2.lineno roleNames allRoleNames
           (table.gensets.filter (fun g => g.general = some entry.1))))

/-- Local collection of `check_relator_pattern`. -/
structure RelatorInfo where
  roles : List (Option String × Decl) := []
  relators : List (Option String × Decl) := []
  mediated : List (Option String × Decl) := []
  specMap : List (String × List (Option String)) := []
  materials : List Decl := []
  deriving Repr

/-- One declaration step of the `check_relator_pattern` collection loop. -/
def relatorCollectStep (i : RelatorInfo) (decl : Decl) : RelatorInfo :=
  if decl.type = some "ClassDeclaration" then
    let i1 :=
      if decl.stereotype = some "role" then
        { i with roles := upsert decl.name decl i.roles
                 mediated := upsert decl.name decl i.mediated }
      else if decl.stereotype = some "kind" ∨ decl.stereotype = some "subkind" then
        { i with mediated := upsert decl.name decl i.mediated }
      else if decl.stereotype = some "relator" then
        { i with relators := upsert decl.name decl i.relators }
      else i
    { i1 with specMap :=
        (decl.specializes.getD []).foldl (fun m sup => appendAt sup decl.name m) i1.specMap }
  else if decl.type = some "RelationDeclaration" ∨ decl.type = some "InlineRelation" then
    if decl.stereotype = some "material" ∨ decl.relation_type = some "material" then
      { i with materials := i.materials ++ [decl] }
    else i
  else i

/-- `body.get("relations") or body.get("members") or []` for a relator body. -/
def relatorTerminations (rd : Decl) : List Member :=
  let body := rd.body.getD {}
  orL (body.relations.getD []) (body.members.getD [])

/-- The set of mediation targets a Relator collects: only members whose
stereotype is exactly "mediation" contribute, and only when the target is a
declared role/kind/subkind. -/
def relatorMediatedSet (rd : Decl) (entities : List (Option String × Decl)) :
    List (Option String) :=
  (relatorTerminations rd).filterMap (fun t =>
    if t.stereotype = some "mediation" then
      let target := orS t.target t.target_class
      if (entities.map (fun p => p.1)).contains target then some target else none
    else none)

/-- First endpoint of a material relation (legacy field-name probe chain). -/
def matEnd1 (m : Decl) : Option String :=
  orS m.source_class (orS m.target1 (orS m.target_a m.end1))

/-- Second endpoint of a material relation. -/
def matEnd2 (m : Decl) : Option String :=
  orS m.target_class (orS m.target2 (orS m.target_b m.end2))

/-- The incomplete-pattern diagnostic of `check_relator_pattern`. -/
def relatorIncompleteErr (r1n r2n : Option String) (missing : List String)
    (lineno : Option Int) : Err :=
  { type := "Incomplete Pattern (Deduction Failure)"
    pattern := "Relator Pattern"
    message := "DEDUÇÃO DE PADRÃO INCOMPLETO: Detecção parcial envolvendo Roles '" ++
      pyStr r1n ++ "' e '" ++ pyStr r2n ++ "'. Faltando: " ++
      String.intercalate ", " missing ++ "."
    lineno := lineno }

/-- The per-pair body of `check_relator_pattern`. -/
def relatorPairStep (info : RelatorInfo)
    (pair : (Option String × Decl) × (Option String × Decl)) : List Found × List Err :=
  let (r1n, r1) := pair.1
  let (r2n, r2) := pair.2
  let kind1 := (r1.specializes.getD []).head?
  let kind2 := (r2.specializes.getD []).head?
  if truthyS kind1 = none ∨ truthyS kind2 = none ∨ kind1 = kind2 then ([], [])
  else
    let foundRelator := info.relators.find? (fun p =>
      let mediated := relatorMediatedSet p.2 info.mediated
      mediated.contains r1n ∧ mediated.contains r2n)
    let foundMaterial := info.materials.find? (fun m =>
      setEq2 (matEnd1 m) (matEnd2 m) r1n r2n)
    match foundRelator, foundMaterial with
    | some rel, some mat =>
      ([{ pattern := "Relator Pattern"
          relator_name := rel.2.name
          roles := some [r1n, r2n]
          material_relation := some (mat.relation_name.getD (mat.name.getD "N/A"))
          lineno := orI rel.2.lineno (orI mat.lineno r1.lineno) }], [])
    | some _, none => ([], [relatorIncompleteErr r1n r2n ["relação @material externa"] r1.lineno])
    | none, some _ => ([], [relatorIncompleteErr r1n r2n ["Relator com mediação"] r1.lineno])
    | none, none => ([], [])

/-- The collection loop of `check_relator_pattern` over all declarations. -/
def relatorCollect (decls : List Decl) : RelatorInfo :=
  decls.foldl relatorCollectStep {}

/-- `check_relator_pattern(ast, table)` (the table argument is unused in the source). -/
def checkRelatorPattern (ast : Ast) (_table : Table) : List Found × List Err :=
  let info := relatorCollect (ast.declarations.getD [])
  let validRoles := info.roles.filter (fun p => (p.2.specializes.getD []).length = 1)
  concatPairs ((combinations2 validRoles).map (relatorPairStep info))

/-- `safe_lineno(mode_decl, 1)` as used by `check_mode_pattern`. -/
def modeLineno (d : Decl) : Int :=
  d.lineno.getD 1

/-- `body` member list of a Mode declaration. -/
def modeBodyRelations (d : Decl) : List Member :=
  match d.body with
  | none => []
  | some b => orL (b.relations.getD []) (b.members.getD [])

/-- The name-based fallback branches of the Mode member scan. -/
def modeNameFallback (acc : Option Member × Option Member) (r : Member) :
    Option Member × Option Member :=
  match truthyS r.name with
  | some n =>
    if strStartsWith (pyLower n) "character" then (orO acc.1 (some r), acc.2)
    else if strHas (pyLower n) "external" then (acc.1, orO acc.2 (some r))
    else acc
  | none => acc

/-- One member step of the Mode body scan for `characterization` /
`externalDependence` (case-insensitive, with name fallbacks). -/
def modeScanStep (acc : Option Member × Option Member) (r : Member) :
    Option Member × Option Member :=
  match r.stereotype with
  | some st =>
    if pyLower st = "characterization" then (some r, acc.2)
    else if pyLower st = "externaldependence" then (acc.1, some r)
    else modeNameFallback acc r
  | none => modeNameFallback acc r

/-- Target of a Mode internal relation (`target` / `target_class` / `targetClass`). -/
def modeTarget (r : Member) : Option String :=
  orS r.target (orS r.target_class r.targetClass)

/-- Membership test `t in kinds_map` with an optional candidate. -/
def kindsMapContains (km : List (String × Decl)) (t : Option String) : Bool :=
  match t with
  | some s => (alookup s km).isSome
  | none => false

/-- The invalid-target diagnostic of `check_mode_pattern`. -/
def modeInvalidTargetErr (modeName t1 t2 : Option String) (lineno : Int) : Err :=
  { type := "Invalid Target (Incomplete Pattern)"
    pattern := "Mode Pattern"
    message := "DEDUÇÃO DE PADRÃO INCOMPLETO: O Mode '" ++ pyStr modeName ++
      "' está conectado a um (ou ambos) alvo(s) ('" ++ pyStr t1 ++ "', '" ++ pyStr t2 ++
      "') que não são Kinds declaradas."
    lineno := some lineno }

/-- The same-kind coercion warning of `check_mode_pattern`. -/
def modeWarnErr (modeName t : Option String) (lineno : Int) : Err :=
  { type := "Semantic Warning (Coercion)"
    pattern := "Mode Pattern"
    message := "AVISO DE COERÇÃO: O Mode '" ++ pyStr modeName ++
      "' usa Characterization e ExternalDependence para a mesma Kind '" ++ pyStr t ++ "'."
    lineno := some lineno }

/-- The missing-stereotype diagnostic of `check_mode_pattern`. -/
def modeMissingErr (modeName : Option String) (missing : List String) (lineno : Int) : Err :=
  { type := "Incomplete Pattern (Deduction Failure)"
    pattern := "Mode Pattern"
    message := "DEDUÇÃO DE PADRÃO INCOMPLETO: O Mode '" ++ pyStr modeName ++
      "' está faltando: " ++ String.intercalate ", " missing ++ "."
    lineno := some lineno }

/-- The per-Mode body of `check_mode_pattern`: a same-kind warning never
suppresses the found record. -/
def processMode (km : List (String × Decl)) (entry : Option String × Decl) :
    List Found × List Err :=
  let (modeName, modeDecl) := entry
  let scan := (modeBodyRelations modeDecl).foldl modeScanStep (none, none)
  match scan with
  | (some c, some ex) =>
    let tc := modeTarget c
    let te := modeTarget ex
    if ¬ kindsMapContains km tc ∨ ¬ kindsMapContains km te then
      ([], [modeInvalidTargetErr modeName tc te (modeLineno modeDecl)])
    else
      let warn := if tc = te then [modeWarnErr modeName tc (modeLineno modeDecl)] else []
      ([{ pattern := "Mode Pattern"
          mode_name := modeName
          characterizes := tc
          depends_on := te
          lineno := some (modeLineno modeDecl) }], warn)
  | (c, ex) =>
    let missing :=
      (if c.isNone then ["@characterization"] else []) ++
      (if ex.isNone then ["@externalDependence"] else [])
    ([], [modeMissingErr modeName missing (modeLineno modeDecl)])

/-- The defensive AST re-scan for Modes when the table has none. -/
def modeAstScan (decls : List Decl) : List (Option String × Decl) :=
  decls.foldl (fun m d =>
    if d.type = some "ClassDeclaration" ∧ d.stereotype = some "mode" then
      upsert d.name d m
    else m) []

/-- `check_mode_pattern(ast, table)`. -/
def checkModePattern (ast : Ast) (table : Table) : List Found × List Err :=
  let km := lookupD "kind" table.classes_by_stereotype []
  let modes0 : List (Option String × Decl) :=
    (lookupD "mode" table.classes_by_stereotype []).map (fun p => (some p.1, p.2))
  let modes := if modes0.isEmpty then modeAstScan (ast.declarations.getD []) else modes0
  concatPairs (modes.map (processMode km))

/-- A positive line number, if present. -/
def posLineno : Option Int → Option Int
  | some n => if 0 < n then some n else none
  | none => none

/-- The RoleMixin checker's `_safe_lineno(primary, fallback)`. -/
def rmSafeLineno (p f : Option Int) : Int :=
  (orO (posLineno p) (posLineno f)).getD 1

/-- The mandatory-genset-missing diagnostic of `check_rolemixin_pattern`. -/
def rmMissingGensetErr (rm : String) (roles : List String) (lineno : Int) : Err :=
  { type := "Incomplete Pattern (Mandatory Genset Missing)"
    pattern := "RoleMixin Pattern"
    message := "O RoleMixin '" ++ rm ++ "' é especializado por Roles (" ++
      String.intercalate ", " roles ++ "), mas NÃO possui nenhum GeneralizationSet."
    lineno := some lineno }

/-- The disjoint-missing diagnostic of `check_rolemixin_pattern`. -/
def rmDisjointErr (gsName rm : String) (lineno : Int) : Err :=
  { type := "Semantic Error (Mandatory Constraint)"
    pattern := "RoleMixin Pattern"
    message := "O Genset '" ++ gsName ++ "' associado ao RoleMixin '" ++ rm ++
      "' DEVE ser declarado como 'disjoint'."
    lineno := some lineno }

/-- The too-few-specifics diagnostic of `check_rolemixin_pattern`. -/
def rmTooFewErr (gsName : String) (lineno : Int) : Err :=
  { type := "Incomplete Pattern (Too Few Specifics)"
    pattern := "RoleMixin Pattern"
    message := "O Genset '" ++ gsName ++ "' possui menos de duas classes em 'specifics'."
    lineno := some lineno }

/-- The non-Role-specifics diagnostic of `check_rolemixin_pattern`. -/
def rmTypeViolErr (gsName : String) (nonRoles : List String) (lineno : Int) : Err :=
  { type := "Semantic Error (Type Violation)"
    pattern := "RoleMixin Pattern"
    message := "O Genset '" ++ gsName ++ "' possui specifics que não são Roles: " ++
      String.intercalate ", " nonRoles ++ "."
    lineno := some lineno }

/-- The missing-specifics diagnostic of `check_rolemixin_pattern`. -/
def rmMissingSpecificsErr (gsName : String) (missing : List String) (lineno : Int) : Err :=
  { type := "Incomplete Pattern (Missing Specifics)"
    pattern := "RoleMixin Pattern"
    message := "DEDUÇÃO DE PADRÃO INCOMPLETO: O Genset '" ++ gsName ++
      "' não inclui todas as Roles especializantes. Ausentes: " ++
      String.intercalate ", " missing ++ "."
    lineno := some lineno }

/-- The per-genset body of `check_rolemixin_pattern`: each failing condition
emits its own diagnostic; only a genset passing all three reaches coverage. -/
def rmGensetStep (rm : String) (rmDecl : Decl) (specializingRoles : List String)
    (allRoleNames : List String) (gs : Decl) : List Found × List Err :=
  let gsName := gs.name.getD "N/A"
  let gsMod := pyset (gs.modifiers.getD [])
  let gsSpecs := pyset (gs.specifics.getD [])
  let gsLineno := rmSafeLineno gs.lineno rmDecl.lineno
  let e1 := if ¬ gsMod.contains "disjoint" then [rmDisjointErr gsName rm gsLineno] else []
  let e2 := if gsSpecs.length < 2 then [rmTooFewErr gsName gsLineno] else []
  let nonRoles := gsSpecs.filter (fun s => ¬ allRoleNames.contains s)
  let e3 := if ¬ nonRoles.isEmpty then [rmTypeViolErr gsName nonRoles gsLineno] else []
  let errs := e1 ++ e2 ++ e3
  if errs.isEmpty then
    let missing := (pyset specializingRoles).filter (fun r => ¬ gsSpecs.contains r)
    if ¬ missing.isEmpty then
      ([], [rmMissingSpecificsErr gsName (pysorted missing) gsLineno])
    else
      ([{ pattern := "RoleMixin Pattern"
          rolemixin := some rm
          roles_grouped := some (pysorted gsSpecs)
          genset_name := some gsName
          is_disjoint := some true
          lineno := some gsLineno }], [])
  else ([], errs)

/-- The per-RoleMixin body of `check_rolemixin_pattern`. -/
def processRoleMixin (table : Table) (allRoleNames : List String) (entry : String × Decl) :
    List Found × List Err :=
  let (rm, rmDecl) := entry
  let linenoRm := rmSafeLineno rmDecl.lineno none
  let specializingRoles := (lookupD rm table.specializes_map []).filter
      (fun r => allRoleNames.contains r)
  if specializingRoles.isEmpty then ([], [])
  else
    let relatedGensets := table.gensets.filter (fun g => g.general = some rm)
    if relatedGensets.isEmpty then
      ([], [rmMissingGensetErr rm specializingRoles linenoRm])
    else
      concatPairs (relatedGensets.map (rmGensetStep rm rmDecl specializingRoles allRoleNames))

/-- `check_rolemixin_pattern(ast, table)`. -/
def checkRoleMixinPattern (_ast : Ast) (table : Table) : List Found × List Err :=
  let rolemixins := lookupD "roleMixin" table.classes_by_stereotype []
  let allRoleNames := (lookupD "role" table.classes_by_stereotype []).map (fun p => p.1)
  concatPairs (rolemixins.map (processRoleMixin table allRoleNames))

/-- `run_semantic_checks(ast)`: one shared symbol table, the six checkers in
their fixed order, results concatenated; an exception anywhere propagates. -/
def runSemanticChecks (ast : Ast) : Except String (List Found × List Err) := do
  let table := buildSymbolTable ast
  let (f1, e1) ← checkSubkindPattern ast table
  let (f2, e2) := checkRolePattern ast table
  let (f3, e3) ← checkPhasePattern ast table
  let (f4, e4) := checkRelatorPattern ast table
  let (f5, e5) := checkModePattern ast table
  let (f6, e6) := checkRoleMixinPattern ast table
  .ok (f1 ++ f2 ++ f3 ++ f4 ++ f5 ++ f6, e1 ++ e2 ++ e3 ++ e4 ++ e5 ++ e6)

/-- The formatter's section-(2) filter: `"Coerção" in type or "Coercion" in type`. -/
def isCoercionDiag (e : Err) : Bool :=
  strHas e.type "Coerção" || strHas e.type "Coercion"

/-- The formatter's section-(3) filter:
`"Incomplete Pattern" in type or "Invalid Target" in type`. -/
def isIncompleteDiag (e : Err) : Bool :=
  strHas e.type "Incomplete Pattern" || strHas e.type "Invalid Target"

/-- Python `f"{lineno}"` for an optional line number. -/
def pyLinenoStr : Option Int → String
  | none => "None"
  | some n => toString n

/-- One rendered line of section (2) of `format_unified_output`. -/
def renderCoercion (e : Err) : String :=
  "  [LINHA " ++ pyLinenoStr e.lineno ++ "] ERRO DE COERÇÃO (" ++ e.pattern ++ "): " ++
    ((e.message.replace "ERRO POR COERÇÃO: " "").replace "AVISO DE COERÇÃO: " "")

/-- One rendered line of section (3) of `format_unified_output`. -/
def renderIncomplete (e : Err) : String :=
  "  [LINHA " ++ pyLinenoStr e.lineno ++ "] PADRÃO INCOMPLETO (" ++ e.pattern ++ "): " ++
    (e.message.replace "DEDUÇÃO DE PADRÃO INCOMPLETO: " "")

/-- Section (2) of `format_unified_output`: constraint-violation diagnostics. -/
def coercionSection (errors : List Err) : List String :=
  (errors.filter isCoercionDiag).map renderCoercion

/-- Section (3) of `format_unified_output`: incomplete/deduction diagnostics. -/
def incompleteSection (errors : List Err) : List String :=
  (errors.filter isIncompleteDiag).map renderIncomplete

/-- `kind Person` (scenario 1 of the spec). -/
def personKindDecl : Decl :=
  { type := some "ClassDeclaration", stereotype := some "kind", name := some "Person",
    lineno := some 1 }

/-- `subkind Man specializes Person`. -/
def manSubDecl : Decl :=
  { type := some "ClassDeclaration", stereotype := some "subkind", name := some "Man",
    specializes := some ["Person"], lineno := some 2 }

/-- `subkind Woman specializes Person`. -/
def womanSubDecl : Decl :=
  { type := some "ClassDeclaration", stereotype := some "subkind", name := some "Woman",
    specializes := some ["Person"], lineno := some 3 }

/-- A family of models around the Subkind pattern: one Kind, two Subkinds
specializing it, and one arbitrary further declaration (the genset under test). -/
def subkindFamily (g : Decl) : Ast :=
  { declarations := some [personKindDecl, manSubDecl, womanSubDecl, g] }

/-- `disjoint complete genset G { general Person specifics Man, Woman }`. -/
def scenario1Genset : Decl :=
  { type := some "GeneralizationSet", name := some "G",
    modifiers := some ["disjoint", "complete"], general := some "Person",
    specifics := some ["Man", "Woman"], lineno := some 4 }

/-- Scenario 1 of the spec: the complete, disjoint Subkind pattern. -/
def scenario1Ast : Ast := subkindFamily scenario1Genset

/-- The scenario-1 genset with the mandatory `disjoint` modifier dropped
(scenario 2 of the spec; used to witness the violation branch of C1). -/
def scenario2Genset : Decl :=
  { type := some "GeneralizationSet", name := some "G",
    modifiers := some ["complete"], general := some "Person",
    specifics := some ["Man", "Woman"], lineno := some 4 }

/-- Two valid disjoint gensets for the same Kind: the checker must stop at the first. -/
def subkindTwoGensetsAst : Ast :=
  { declarations := some [personKindDecl, manSubDecl, womanSubDecl,
      { type := some "GeneralizationSet", name := some "G1",
        modifiers := some ["disjoint"], general := some "Person",
        specifics := some ["Man", "Woman"], lineno := some 4 },
      { type := some "GeneralizationSet", name := some "G2",
        modifiers := some ["disjoint", "complete"], general := some "Person",
        specifics := some ["Man", "Woman"], lineno := some 5 }] }

/-- `kind K` of the Role-pattern family. -/
def kindKDecl : Decl :=
  { type := some "ClassDeclaration", stereotype := some "kind", name := some "K",
    lineno := some 1 }

/-- `role R1 specializes K`. -/
def roleR1Decl : Decl :=
  { type := some "ClassDeclaration", stereotype := some "role", name := some "R1",
    specializes := some ["K"], lineno := some 2 }

/-- `role R2 specializes K`. -/
def roleR2Decl : Decl :=
  { type := some "ClassDeclaration", stereotype := some "role", name := some "R2",
    specializes := some ["K"], lineno := some 3 }

/-- A family of models around the Role pattern: one Kind, two Roles
specializing it, and one arbitrary further declaration (the genset under test). -/
def roleFamily (g : Decl) : Ast :=
  { declarations := some [kindKDecl, roleR1Decl, roleR2Decl, g] }

/-- Counterexample model for C2: `roleCexG1` is a valid non-disjoint Role genset placed before
a disjoint one; the found record for it breaks the loop, so the
disjoint genset G2 is never examined. -/
def roleCexG1 : Decl :=
  { type := some "GeneralizationSet", name := some "G1",
    modifiers := some [], general := some "K",
    specifics := some ["R1", "R2"], lineno := some 4 }

/-- The disjoint genset of `roleCexAst` (the one claim C2 is about). -/
def roleCexG2 : Decl :=
  { type := some "GeneralizationSet", name := some "G2",
    modifiers := some ["disjoint"], general := some "K",
    specifics := some ["R1", "R2"], lineno := some 5 }

/-- Counterexample model for C2 (continued): both gensets over the two Roles. -/
def roleCexAst : Ast :=
  { declarations := some [kindKDecl, roleR1Decl, roleR2Decl, roleCexG1, roleCexG2] }

/-- `kind Doc` of the Phase-pattern family. -/
def docKindDecl : Decl :=
  { type := some "ClassDeclaration", stereotype := some "kind", name := some "Doc",
    lineno := some 1 }

/-- `phase Draft specializes Doc`. -/
def draftPhaseDecl : Decl :=
  { type := some "ClassDeclaration", stereotype := some "phase", name := some "Draft",
    specializes := some ["Doc"], lineno := some 2 }

/-- `phase Final specializes Doc`. -/
def finalPhaseDecl : Decl :=
  { type := some "ClassDeclaration", stereotype := some "phase", name := some "Final",
    specializes := some ["Doc"], lineno := some 3 }

/-- A family of models around the Phase pattern: one Kind, two Phases
specializing it, and one arbitrary further declaration (the genset under test). -/
def phaseFamily (g : Decl) : Ast :=
  { declarations := some [docKindDecl, draftPhaseDecl, finalPhaseDecl, g] }

/-- The non-disjoint Phase genset claim C3 is about. -/
def phaseCexG : Decl :=
  { type := some "GeneralizationSet", name := some "G",
    modifiers := some [], general := some "Doc",
    specifics := some ["Draft", "Final"], lineno := some 4 }

/-- A valid disjoint Phase genset for the `phaseFamily` model. -/
def phaseOkGenset : Decl :=
  { type := some "GeneralizationSet", name := some "G",
    modifiers := some ["disjoint", "complete"], general := some "Doc",
    specifics := some ["Draft", "Final"], lineno := some 4 }

/-- Counterexample model for C3: the Phases are declared but do not specialize
the Kind, so the Kind-first scan never reaches the (non-disjoint) genset. -/
def phaseCexAst : Ast :=
  { declarations := some [docKindDecl,
      { type := some "ClassDeclaration", stereotype := some "phase", name := some "Draft",
        lineno := some 2 },
      { type := some "ClassDeclaration", stereotype := some "phase", name := some "Final",
        lineno := some 3 },
      phaseCexG] }

/-- `kind KA` of the Relator scenario. -/
def kindKADecl : Decl :=
  { type := some "ClassDeclaration", stereotype := some "kind", name := some "KA",
    lineno := some 1 }

/-- `kind KB` of the Relator scenario. -/
def kindKBDecl : Decl :=
  { type := some "ClassDeclaration", stereotype := some "kind", name := some "KB",
    lineno := some 2 }

/-- `role A specializes KA`. -/
def roleADecl : Decl :=
  { type := some "ClassDeclaration", stereotype := some "role", name := some "A",
    specializes := some ["KA"], lineno := some 3 }

/-- `role B specializes KB`. -/
def roleBDecl : Decl :=
  { type := some "ClassDeclaration", stereotype := some "role", name := some "B",
    specializes := some ["KB"], lineno := some 4 }

/-- The Relator of the scenario, mediating A and B via tagged members. -/
def relatorRDecl : Decl :=
  { type := some "ClassDeclaration", stereotype := some "relator", name := some "R",
    body := some { relations := some [
      { stereotype := some "mediation", target := some "A" },
      { stereotype := some "mediation", target := some "B" }] },
    lineno := some 5 }

/-- Declarations of the Relator scenario: Roles A and B on distinct Kinds and a
Relator mediating both. -/
def relatorBaseDecls : List Decl :=
  [kindKADecl, kindKBDecl, roleADecl, roleBDecl, relatorRDecl]

/-- The `@material` relation between A and B. -/
def materialABDecl : Decl :=
  { type := some "RelationDeclaration", stereotype := some "material",
    name := some "worksFor", source_class := some "A", target_class := some "B",
    lineno := some 6 }

/-- Complete Relator scenario: mediating Relator plus material relation. -/
def relatorFullAst : Ast :=
  { declarations := some (relatorBaseDecls ++ [materialABDecl]) }

/-- The same scenario with the material relation removed. -/
def relatorNoMaterialAst : Ast :=
  { declarations := some relatorBaseDecls }

/-- The mediating Relator of the scenario, with the stereotype tags removed
from its body members (claim C5 is about this variant). -/
def relatorUntaggedDecl : Decl :=
  { type := some "ClassDeclaration", stereotype := some "relator", name := some "R",
    body := some { relations := some [
      { target := some "A" },
      { target := some "B" }] },
    lineno := some 5 }

/-- The Relator scenario with an untagged relator body and the material
relation present. -/
def relatorUntaggedAst : Ast :=
  { declarations := some [kindKADecl, kindKBDecl, roleADecl, roleBDecl,
      relatorUntaggedDecl, materialABDecl] }

/-- Counterexample model for C6: a RoleMixin genset lacking `disjoint` makes the
checker emit a "Semantic Error (Mandatory Constraint)" diagnostic, whose type
matches neither formatter section filter. -/
def c6CexAst : Ast :=
  { declarations := some [
      { type := some "ClassDeclaration", stereotype := some "roleMixin",
        name := some "RM", lineno := some 1 },
      { type := some "ClassDeclaration", stereotype := some "role", name := some "A",
        specializes := some ["RM"], lineno := some 2 },
      { type := some "ClassDeclaration", stereotype := some "role", name := some "B",
        specializes := some ["RM"], lineno := some 3 },
      { type := some "GeneralizationSet", name := some "G",
        modifiers := some [], general := some "RM",
        specifics := some ["A", "B"], lineno := some 4 }] }

/-- `kind K` of the Mode scenario for C8. -/
def c8KindDecl : Decl :=
  { type := some "ClassDeclaration", stereotype := some "kind", name := some "K",
    lineno := some 1 }

/-- `mode M` characterizing and externally depending on the same Kind `K`. -/
def c8ModeDecl : Decl :=
  { type := some "ClassDeclaration", stereotype := some "mode", name := some "M",
    body := some { relations := some [
      { stereotype := some "characterization", target := some "K" },
      { stereotype := some "externalDependence", target := some "K" }] },
    lineno := some 2 }

/-- Mode scenario for C8: characterization and externalDependence of the same Kind. -/
def c8ScenarioAst : Ast :=
  { declarations := some [c8KindDecl, c8ModeDecl] }

/-- `roleMixin Customer` of scenario 3. -/
def customerRMDecl : Decl :=
  { type := some "ClassDeclaration", stereotype := some "roleMixin",
    name := some "Customer", lineno := some 1 }

/-- Scenario 3 of the spec: a RoleMixin specialized by Roles but with no genset. -/
def scenario3Ast : Ast :=
  { declarations := some [customerRMDecl,
      { type := some "ClassDeclaration", stereotype := some "role", name := some "A",
        specializes := some ["Customer"], lineno := some 2 },
      { type := some "ClassDeclaration", stereotype := some "role", name := some "B",
        specializes := some ["Customer"], lineno := some 3 }] }

/-- First declaration of the duplicate-name model of C10. -/
def dupDecl1 : Decl :=
  { type := some "ClassDeclaration", stereotype := some "kind", name := some "X",
    specializes := some ["S"], lineno := some 1 }

/-- Second declaration of the duplicate-name model of C10: same name, so it
shadows `dupDecl1` in the class indexes. -/
def dupDecl2 : Decl :=
  { type := some "ClassDeclaration", stereotype := some "kind", name := some "X",
    specializes := some ["T"], lineno := some 2 }

/-- The duplicate-name model of C10. -/
def dupAst : Ast := { declarations := some [dupDecl1, dupDecl2] }

end Tonto

deriving instance DecidableEq for Except

namespace Tonto

@[simp] lemma bindOk (a : α) (f : α → Except String β) :
    Bind.bind (Except.ok a) f = f a := rfl

lemma upsert_mem [DecidableEq κ] {k : κ} {v : α} {m : List (κ × α)} {p : κ × α}
    (h : p ∈ upsert k v m) : p = (k, v) ∨ p ∈ m := by
  induction m with
  | nil => simpa [upsert] using h
  | cons q rest ih =>
    obtain ⟨k', v'⟩ := q
    unfold upsert at h
    split at h
    · rcases List.mem_cons.mp h with h | h
      · exact Or.inl h
      · exact Or.inr (List.mem_cons_of_mem _ h)
    · rcases List.mem_cons.mp h with h | h
      · exact Or.inr (h ▸ List.mem_cons_self _ _)
      · rcases ih h with h | h
        · exact Or.inl h
        · exact Or.inr (List.mem_cons_of_mem _ h)

lemma alookup_mem [DecidableEq κ] {k : κ} {m : List (κ × α)} {v : α}
    (h : alookup k m = some v) : (k, v) ∈ m := by
  induction m with
  | nil => simp [alookup] at h
  | cons q rest ih =>
    obtain ⟨k', v'⟩ := q
    unfold alookup at h
    split at h
    · rename_i hk
      cases h
      exact hk ▸ List.mem_cons_self _ _
    · exact List.mem_cons_of_mem _ (ih h)

lemma concatPairs_cons (p : List Found × List Err) (l : List (List Found × List Err)) :
    concatPairs (p :: l) = (p.1 ++ (concatPairs l).1, p.2 ++ (concatPairs l).2) := rfl

lemma concatPairs_mem_err {l : List (List Found × List Err)} {e : Err}
    (h : e ∈ (concatPairs l).2) : ∃ p ∈ l, e ∈ p.2 := by
  induction l with
  | nil => simp [concatPairs] at h
  | cons p t ih =>
    rw [concatPairs_cons] at h
    rcases List.mem_append.mp h with h | h
    · exact ⟨p, List.mem_cons_self _ _, h⟩
    · obtain ⟨q, hq, he⟩ := ih h
      exact ⟨q, List.mem_cons_of_mem _ hq, he⟩

lemma exceptMapAll_ok {f : α → Except String (List Found × List Err)} {l : List α}
    (h : ∀ x ∈ l, ∃ r, f x = .ok r) : ∃ r, exceptMapAll f l = .ok r := by
  induction l with
  | nil => exact ⟨([], []), rfl⟩
  | cons x xs ih =>
    obtain ⟨r, hr⟩ := h x (List.mem_cons_self _ _)
    obtain ⟨rs, hrs⟩ := ih (fun y hy => h y (List.mem_cons_of_mem _ hy))
    refine ⟨(r.1 ++ rs.1, r.2 ++ rs.2), ?_⟩
    simp [exceptMapAll, hr, hrs]

lemma exceptMapAll_err {P : Err → Prop} {f : α → Except String (List Found × List Err)}
    {l : List α}
    (hf : ∀ x ∈ l, ∀ r, f x = .ok r → ∀ e ∈ r.2, P e) :
    ∀ r, exceptMapAll f l = .ok r → ∀ e ∈ r.2, P e := by
  induction l with
  | nil =>
    intro r hr e he
    cases hr
    simp at he
  | cons x xs ih =>
    intro r hr e he
    unfold exceptMapAll at hr
    cases hx : f x with
    | error msg => rw [hx] at hr; simp [Bind.bind, Except.bind] at hr
    | ok p =>
      rw [hx] at hr
      cases hxs : exceptMapAll f xs with
      | error msg => rw [hxs] at hr; simp [Bind.bind, Except.bind] at hr
      | ok rest =>
        rw [hxs] at hr
        simp only [bindOk] at hr
        cases hr
        rcases List.mem_append.mp he with h | h
        · exact hf x (List.mem_cons_self _ _) p hx e h
        · exact ih (fun y hy => hf y (List.mem_cons_of_mem _ hy)) rest hxs e h

lemma subkindGensetLoop_err {kn : Option String} {kl : Option Int} {subs : List Decl}
    {alls : List (Option String)} :
    ∀ {gsl : List Decl} {r}, subkindGensetLoop kn kl subs alls gsl = .ok r →
      ∀ e ∈ r.2, e.type = "Semantic Error (Mandatory Constraint - Coerção)" := by
  intro gsl
  induction gsl with
  | nil =>
    intro r hr e he
    cases hr
    simp at he
  | cons gs rest ih =>
    intro r hr e he
    unfold subkindGensetLoop at hr
    dsimp only at hr
    split at hr
    · exact ih hr e he
    · split at hr
      · cases hrec : subkindGensetLoop kn kl subs alls rest with
        | error m => rw [hrec] at hr; simp [Bind.bind, Except.bind] at hr
        | ok p =>
          rw [hrec] at hr
          simp only [bindOk] at hr
          cases hr
          rcases List.mem_cons.mp he with h | h
          · subst h; rfl
          · exact ih hrec e h
      · cases hn : getNames subs with
        | error m => rw [hn] at hr; simp [Bind.bind, Except.bind] at hr
        | ok names =>
          rw [hn] at hr
          simp only [bindOk] at hr
          split at hr
          · cases hr; simp at he
          · exact ih hr e he

lemma phaseGensetLoop_err {kn : Option String} {kl : Option Int} {phs : List Decl}
    {alls : List (Option String)} :
    ∀ {gsl : List Decl} {r}, phaseGensetLoop kn kl phs alls gsl = .ok r →
      ∀ e ∈ r.2, e.type = "Semantic Error (Mandatory Constraint - Coerção)" := by
  intro gsl
  induction gsl with
  | nil =>
    intro r hr e he
    cases hr
    simp at he
  | cons gs rest ih =>
    intro r hr e he
    unfold phaseGensetLoop at hr
    dsimp only at hr
    split at hr
    · exact ih hr e he
    · split at hr
      · cases hrec : phaseGensetLoop kn kl phs alls rest with
        | error m => rw [hrec] at hr; simp [Bind.bind, Except.bind] at hr
        | ok p =>
          rw [hrec] at hr
          simp only [bindOk] at hr
          cases hr
          rcases List.mem_cons.mp he with h | h
          · subst h; rfl
          · exact ih hrec e h
      · cases hn : getNames phs with
        | error m => rw [hn] at hr; simp [Bind.bind, Except.bind] at hr
        | ok names =>
          rw [hn] at hr
          simp only [bindOk] at hr
          split at hr
          · cases hr; simp at he
          · exact ih hr e he

lemma roleGensetLoop_err {kn : String} {kl : Option Int} {rn arn : List String} :
    ∀ {gsl : List Decl}, ∀ e ∈ (roleGensetLoop kn kl rn arn gsl).2,
      e.type = "Semantic Error (Coercion Conflict)" := by
  intro gsl
  induction gsl with
  | nil => intro e he; simp [roleGensetLoop] at he
  | cons gs rest ih =>
    intro e he
    unfold roleGensetLoop at he
    dsimp only at he
    split at he
    · exact ih e he
    · split at he
      · exact ih e he
      · split at he
        · split at he
          · rcases List.mem_singleton.mp he with h
            subst h
            rfl
          · simp at he
        · rcases hrec : roleGensetLoop kn kl rn arn rest with ⟨f2, e2⟩
          rw [hrec] at he
          dsimp only at he
          rcases List.mem_append.mp he with h | h
          · split at h
            · rcases List.mem_singleton.mp h with h'
              subst h'
              rfl
            · simp at h
          · refine ih e ?_
            rw [hrec]
            exact h

lemma relatorPairStep_err {info : RelatorInfo}
    {pair : (Option String × Decl) × (Option String × Decl)} :
    ∀ e ∈ (relatorPairStep info pair).2, e.type = "Incomplete Pattern (Deduction Failure)" := by
  intro e he
  unfold relatorPairStep at he
  dsimp only at he
  split at he
  · simp at he
  · rcases hfr : info.relators.find? (fun p =>
        decide ((relatorMediatedSet p.2 info.mediated).contains pair.1.1 = true ∧
          (relatorMediatedSet p.2 info.mediated).contains pair.2.1 = true)) with _ | rel
    · rw [hfr] at he
      rcases hfm : info.materials.find? (fun m =>
          setEq2 (matEnd1 m) (matEnd2 m) pair.1.1 pair.2.1) with _ | mat
      · rw [hfm] at he
        simp at he
      · rw [hfm] at he
        rcases List.mem_singleton.mp he with h
        subst h
        rfl
    · rw [hfr] at he
      rcases hfm : info.materials.find? (fun m =>
          setEq2 (matEnd1 m) (matEnd2 m) pair.1.1 pair.2.1) with _ | mat
      · rw [hfm] at he
        rcases List.mem_singleton.mp he with h
        subst h
        rfl
      · rw [hfm] at he
        simp at he

lemma processMode_err {km : List (String × Decl)} {x : Option String × Decl} :
    ∀ e ∈ (processMode km x).2,
      e.type = "Invalid Target (Incomplete Pattern)" ∨
      e.type = "Semantic Warning (Coercion)" ∨
      e.type = "Incomplete Pattern (Deduction Failure)" := by
  intro e he
  unfold processMode at he
  dsimp only at he
  rcases hscan : (modeBodyRelations x.2).foldl modeScanStep (none, none) with ⟨oc, oex⟩
  rw [hscan] at he
  cases oc with
  | none =>
    dsimp only at he
    rcases List.mem_singleton.mp he with h
    subst h
    exact Or.inr (Or.inr rfl)
  | some c =>
    cases oex with
    | none =>
      dsimp only at he
      rcases List.mem_singleton.mp he with h
      subst h
      exact Or.inr (Or.inr rfl)
    | some ex =>
      dsimp only at he
      split at he
      · rcases List.mem_singleton.mp he with h
        subst h
        exact Or.inl rfl
      · split at he
        · rcases List.mem_singleton.mp he with h
          subst h
          exact Or.inr (Or.inl rfl)
        · simp at he

lemma rmGensetStep_err {rm : String} {rmDecl : Decl} {sr arn : List String} {gs : Decl} :
    ∀ e ∈ (rmGensetStep rm rmDecl sr arn gs).2,
      e.type = "Semantic Error (Mandatory Constraint)" ∨
      e.type = "Incomplete Pattern (Too Few Specifics)" ∨
      e.type = "Semantic Error (Type Violation)" ∨
      e.type = "Incomplete Pattern (Missing Specifics)" := by
  intro e he
  unfold rmGensetStep at he
  dsimp only at he
  split_ifs at he <;>
    simp_all [rmDisjointErr, rmTooFewErr, rmTypeViolErr, rmMissingSpecificsErr] <;>
    (rcases he with rfl | rfl | rfl; all_goals simp)

lemma processRoleMixin_err {table : Table} {arn : List String} {x : String × Decl} :
    ∀ e ∈ (processRoleMixin table arn x).2,
      e.type = "Incomplete Pattern (Mandatory Genset Missing)" ∨
      e.type = "Semantic Error (Mandatory Constraint)" ∨
      e.type = "Incomplete Pattern (Too Few Specifics)" ∨
      e.type = "Semantic Error (Type Violation)" ∨
      e.type = "Incomplete Pattern (Missing Specifics)" := by
  intro e he
  unfold processRoleMixin at he
  dsimp only at he
  split at he
  · simp at he
  · split at he
    · rcases List.mem_singleton.mp he with h
      subst h
      exact Or.inl rfl
    · obtain ⟨p, hp, hep⟩ := concatPairs_mem_err he
      obtain ⟨g, _, hg⟩ := List.mem_map.mp hp
      subst hg
      rcases rmGensetStep_err e hep with h | h | h | h
      · exact Or.inr (Or.inl h)
      · exact Or.inr (Or.inr (Or.inl h))
      · exact Or.inr (Or.inr (Or.inr (Or.inl h)))
      · exact Or.inr (Or.inr (Or.inr (Or.inr h)))

lemma subkindKindStep_err {info : LocalInfo} {x : Option String × Decl} :
    ∀ r, subkindKindStep info x = .ok r →
      ∀ e ∈ r.2, e.type = "Semantic Error (Mandatory Constraint - Coerção)" := by
  intro r hr e he
  unfold subkindKindStep at hr
  dsimp only at hr
  split at hr
  · cases hr; simp at he
  · exact subkindGensetLoop_err hr e he

lemma checkSubkindPattern_err {ast : Ast} {t : Table} {r} :
    checkSubkindPattern ast t = .ok r →
      ∀ e ∈ r.2, e.type = "Semantic Error (Mandatory Constraint - Coerção)" := by
  intro hr
  exact exceptMapAll_err (fun x _ r' h' => subkindKindStep_err r' h') r hr

lemma phaseKindStep_err {info : LocalInfo} {x : Option String × Decl} :
    ∀ r, phaseKindStep info x = .ok r →
      ∀ e ∈ r.2, e.type = "Semantic Error (Mandatory Constraint - Coerção)" := by
  intro r hr e he
  unfold phaseKindStep at hr
  dsimp only at hr
  split at hr
  · cases hr; simp at he
  · exact phaseGensetLoop_err hr e he

lemma checkPhasePattern_err {ast : Ast} {t : Table} {r} :
    checkPhasePattern ast t = .ok r →
      ∀ e ∈ r.2, e.type = "Semantic Error (Mandatory Constraint - Coerção)" := by
  intro hr
  exact exceptMapAll_err (fun x _ r' h' => phaseKindStep_err r' h') r hr

lemma checkRolePattern_err (ast : Ast) (t : Table) :
    ∀ e ∈ (checkRolePattern ast t).2, e.type = "Semantic Error (Coercion Conflict)" := by
  intro e he
  unfold checkRolePattern at he
  try dsimp only at he
  obtain ⟨p, hp, hep⟩ := concatPairs_mem_err he
  obtain ⟨entry, _, hentry⟩ := List.mem_map.mp hp
  subst hentry
  split at hep
  · simp at hep
  · exact roleGensetLoop_err e hep

lemma checkRelatorPattern_err (ast : Ast) (t : Table) :
    ∀ e ∈ (checkRelatorPattern ast t).2,
      e.type = "Incomplete Pattern (Deduction Failure)" := by
  intro e he
  unfold checkRelatorPattern at he
  try dsimp only at he
  obtain ⟨p, hp, hep⟩ := concatPairs_mem_err he
  obtain ⟨pair, _, hpair⟩ := List.mem_map.mp hp
  subst hpair
  exact relatorPairStep_err e hep

lemma checkModePattern_err (ast : Ast) (t : Table) :
    ∀ e ∈ (checkModePattern ast t).2,
      e.type = "Invalid Target (Incomplete Pattern)" ∨
      e.type = "Semantic Warning (Coercion)" ∨
      e.type = "Incomplete Pattern (Deduction Failure)" := by
  intro e he
  unfold checkModePattern at he
  obtain ⟨p, hp, hep⟩ := concatPairs_mem_err he
  obtain ⟨entry, _, hentry⟩ := List.mem_map.mp hp
  subst hentry
  exact processMode_err e hep

lemma checkRoleMixinPattern_err (ast : Ast) (t : Table) :
    ∀ e ∈ (checkRoleMixinPattern ast t).2,
      e.type = "Incomplete Pattern (Mandatory Genset Missing)" ∨
      e.type = "Semantic Error (Mandatory Constraint)" ∨
      e.type = "Incomplete Pattern (Too Few Specifics)" ∨
      e.type = "Semantic Error (Type Violation)" ∨
      e.type = "Incomplete Pattern (Missing Specifics)" := by
  intro e he
  unfold checkRoleMixinPattern at he
  try dsimp only at he
  obtain ⟨p, hp, hep⟩ := concatPairs_mem_err he
  obtain ⟨entry, _, hentry⟩ := List.mem_map.mp hp
  subst hentry
  exact processRoleMixin_err e hep

lemma runSemanticChecks_err {ast : Ast} {f : List Found} {errs : List Err}
    (h : runSemanticChecks ast = .ok (f, errs)) :
    ∀ e ∈ errs,
      e.type = "Semantic Error (Mandatory Constraint - Coerção)" ∨
      e.type = "Semantic Error (Coercion Conflict)" ∨
      e.type = "Incomplete Pattern (Deduction Failure)" ∨
      e.type = "Invalid Target (Incomplete Pattern)" ∨
      e.type = "Semantic Warning (Coercion)" ∨
      e.type = "Incomplete Pattern (Mandatory Genset Missing)" ∨
      e.type = "Semantic Error (Mandatory Constraint)" ∨
      e.type = "Incomplete Pattern (Too Few Specifics)" ∨
      e.type = "Semantic Error (Type Violation)" ∨
      e.type = "Incomplete Pattern (Missing Specifics)" := by
  intro e he
  unfold runSemanticChecks at h
  dsimp only at h
  cases h1 : checkSubkindPattern ast (buildSymbolTable ast) with
  | error m => rw [h1] at h; simp [Bind.bind, Except.bind] at h
  | ok r1 =>
    obtain ⟨f1, e1⟩ := r1
    rw [h1] at h
    simp only [bindOk] at h
    rcases h2 : checkRolePattern ast (buildSymbolTable ast) with ⟨f2, e2⟩
    rw [h2] at h
    cases h3 : checkPhasePattern ast (buildSymbolTable ast) with
    | error m => rw [h3] at h; simp [Bind.bind, Except.bind] at h
    | ok r3 =>
      obtain ⟨f3, e3⟩ := r3
      rw [h3] at h
      simp only [bindOk] at h
      rcases h4 : checkRelatorPattern ast (buildSymbolTable ast) with ⟨f4, e4⟩
      rw [h4] at h
      rcases h5 : checkModePattern ast (buildSymbolTable ast) with ⟨f5, e5⟩
      rw [h5] at h
      rcases h6 : checkRoleMixinPattern ast (buildSymbolTable ast) with ⟨f6, e6⟩
      rw [h6] at h
      dsimp only at h
      cases h
      rcases List.mem_append.mp he with hm | hm
      rotate_left
      · rcases (h6 ▸ checkRoleMixinPattern_err ast (buildSymbolTable ast)) e hm
          with hh | hh | hh | hh | hh
        · exact Or.inr (Or.inr (Or.inr (Or.inr (Or.inr (Or.inl hh)))))
        · exact Or.inr (Or.inr (Or.inr (Or.inr (Or.inr (Or.inr (Or.inl hh))))))
        · exact Or.inr (Or.inr (Or.inr (Or.inr (Or.inr (Or.inr (Or.inr (Or.inl hh)))))))
        · exact Or.inr (Or.inr (Or.inr (Or.inr (Or.inr (Or.inr (Or.inr (Or.inr (Or.inl hh))))))))
        · exact Or.inr (Or.inr (Or.inr (Or.inr (Or.inr (Or.inr (Or.inr (Or.inr (Or.inr hh))))))))
      rcases List.mem_append.mp hm with hm | hm
      rotate_left
      · rcases (h5 ▸ checkModePattern_err ast (buildSymbolTable ast)) e hm
          with hh | hh | hh
        · exact Or.inr (Or.inr (Or.inr (Or.inl hh)))
        · exact Or.inr (Or.inr (Or.inr (Or.inr (Or.inl hh))))
        · exact Or.inr (Or.inr (Or.inl hh))
      rcases List.mem_append.mp hm with hm | hm
      rotate_left
      · exact Or.inr (Or.inr (Or.inl
          ((h4 ▸ checkRelatorPattern_err ast (buildSymbolTable ast)) e hm)))
      rcases List.mem_append.mp hm with hm | hm
      rotate_left
      · exact Or.inl (checkPhasePattern_err h3 e hm)
      rcases List.mem_append.mp hm with hm | hm
      · exact Or.inl (checkSubkindPattern_err h1 e hm)
      · exact Or.inr (Or.inl
          ((h2 ▸ checkRolePattern_err ast (buildSymbolTable ast)) e hm))

lemma getNames_ok {ds : List Decl} (h : ∀ d ∈ ds, d.name.isSome) :
    ∃ ns, getNames ds = .ok ns := by
  induction ds with
  | nil => exact ⟨[], rfl⟩
  | cons d t ih =>
    obtain ⟨n, hn⟩ := Option.isSome_iff_exists.mp (h d (List.mem_cons_self _ _))
    obtain ⟨ns, hns⟩ := ih (fun x hx => h x (List.mem_cons_of_mem _ hx))
    refine ⟨n :: ns, ?_⟩
    simp [getNames, getName, hn, hns]

lemma subkindGensetLoop_ok {kn : Option String} {kl : Option Int} {subs : List Decl}
    {alls : List (Option String)} (h : ∀ d ∈ subs, d.name.isSome) :
    ∀ gsl, ∃ r, subkindGensetLoop kn kl subs alls gsl = .ok r := by
  intro gsl
  induction gsl with
  | nil => exact ⟨([], []), rfl⟩
  | cons gs rest ih =>
    obtain ⟨r, hr⟩ := ih
    obtain ⟨ns, hns⟩ := getNames_ok h
    unfold subkindGensetLoop
    dsimp only
    split
    · exact ⟨r, hr⟩
    · split
      · refine ⟨(r.1, subkindViolErr (gs.name.getD "N/A") kn (orO gs.lineno kl) :: r.2), ?_⟩
        rw [hr]
        rfl
      · rw [hns]
        simp only [bindOk]
        split
        · exact ⟨_, rfl⟩
        · exact ⟨r, hr⟩

lemma phaseGensetLoop_ok {kn : Option String} {kl : Option Int} {phs : List Decl}
    {alls : List (Option String)} (h : ∀ d ∈ phs, d.name.isSome) :
    ∀ gsl, ∃ r, phaseGensetLoop kn kl phs alls gsl = .ok r := by
  intro gsl
  induction gsl with
  | nil => exact ⟨([], []), rfl⟩
  | cons gs rest ih =>
    obtain ⟨r, hr⟩ := ih
    obtain ⟨ns, hns⟩ := getNames_ok h
    unfold phaseGensetLoop
    dsimp only
    split
    · exact ⟨r, hr⟩
    · split
      · refine ⟨(r.1, phaseViolErr (gs.name.getD "N/A") kn (orO gs.lineno kl) :: r.2), ?_⟩
        rw [hr]
        rfl
      · rw [hns]
        simp only [bindOk]
        split
        · exact ⟨_, rfl⟩
        · exact ⟨r, hr⟩

lemma localCollect_stereo_names {st : String} :
    ∀ (ds : List Decl) (acc : LocalInfo),
      (∀ p ∈ acc.stereoClasses, p.2.name.isSome) →
      (∀ d ∈ ds, d.name.isSome) →
      ∀ p ∈ (ds.foldl (localCollectStep st) acc).stereoClasses, p.2.name.isSome := by
  intro ds
  induction ds with
  | nil => exact fun acc hacc _ p hp => hacc p hp
  | cons d t ih =>
    intro acc hacc hds p hp
    refine ih (localCollectStep st acc d) ?_ (fun x hx => hds x (List.mem_cons_of_mem _ hx)) p hp
    intro q hq
    unfold localCollectStep at hq
    dsimp only at hq
    split at hq
    · split at hq
      · exact hacc q hq
      · split at hq
        · rcases upsert_mem hq with h' | h'
          · rw [h']
            exact hds d (List.mem_cons_self _ _)
          · exact hacc q h'
        · exact hacc q hq
    · split at hq
      · rcases htr : truthyS d.general with _ | gname
        · rw [htr] at hq
          exact hacc q hq
        · rw [htr] at hq
          exact hacc q hq
      · exact hacc q hq

lemma subkindKindStep_ok {info : LocalInfo} {x : Option String × Decl}
    (h : ∀ p ∈ info.stereoClasses, p.2.name.isSome) :
    ∃ r, subkindKindStep info x = .ok r := by
  unfold subkindKindStep
  dsimp only
  split
  · exact ⟨_, rfl⟩
  · apply subkindGensetLoop_ok
    intro d hd
    obtain ⟨n, _, hf⟩ := List.mem_filterMap.mp hd
    split at hf
    · exact h (n, d) (alookup_mem hf)
    · cases hf

lemma phaseKindStep_ok {info : LocalInfo} {x : Option String × Decl}
    (h : ∀ p ∈ info.stereoClasses, p.2.name.isSome) :
    ∃ r, phaseKindStep info x = .ok r := by
  unfold phaseKindStep
  dsimp only
  split
  · exact ⟨_, rfl⟩
  · apply phaseGensetLoop_ok
    intro d hd
    obtain ⟨n, _, hf⟩ := List.mem_filterMap.mp hd
    split at hf
    · exact h (n, d) (alookup_mem hf)
    · cases hf

lemma checkSubkindPattern_ok (ast : Ast) (t : Table)
    (h : ∀ d ∈ ast.declarations.getD [], d.name.isSome) :
    ∃ r, checkSubkindPattern ast t = .ok r := by
  unfold checkSubkindPattern
  apply exceptMapAll_ok
  intro x _
  exact subkindKindStep_ok
    (localCollect_stereo_names (ast.declarations.getD []) {} (by simp) h)

lemma checkPhasePattern_ok (ast : Ast) (t : Table)
    (h : ∀ d ∈ ast.declarations.getD [], d.name.isSome) :
    ∃ r, checkPhasePattern ast t = .ok r := by
  unfold checkPhasePattern
  apply exceptMapAll_ok
  intro x _
  exact phaseKindStep_ok
    (localCollect_stereo_names (ast.declarations.getD []) {} (by simp) h)

lemma localCollect_subkindFamily (g : Decl) (hT : g.type = some "GeneralizationSet")
    (hG : g.general = some "Person") :
    localCollect "subkind" [personKindDecl, manSubDecl, womanSubDecl, g] =
      { kinds := [(some "Person", personKindDecl)]
        stereoClasses := [(some "Man", manSubDecl), (some "Woman", womanSubDecl)]
        specMap := [("Person", [some "Man", some "Woman"])]
        gensetsByGeneral := [("Person", [g])] } := by
  simp [localCollect, localCollectStep, personKindDecl, manSubDecl, womanSubDecl, hT, hG,
    truthyS, upsert, appendAt]

lemma localCollect_phaseFamily (g : Decl) (hT : g.type = some "GeneralizationSet")
    (hG : g.general = some "Doc") :
    localCollect "phase" [docKindDecl, draftPhaseDecl, finalPhaseDecl, g] =
      { kinds := [(some "Doc", docKindDecl)]
        stereoClasses := [(some "Draft", draftPhaseDecl), (some "Final", finalPhaseDecl)]
        specMap := [("Doc", [some "Draft", some "Final"])]
        gensetsByGeneral := [("Doc", [g])] } := by
  simp [localCollect, localCollectStep, docKindDecl, draftPhaseDecl, finalPhaseDecl, hT, hG,
    truthyS, upsert, appendAt]

lemma buildSymbolTable_roleFamily (g : Decl) (hT : g.type = some "GeneralizationSet") :
    buildSymbolTable (roleFamily g) =
      { classes_by_stereotype :=
          [("kind", [("K", kindKDecl)]), ("role", [("R1", roleR1Decl), ("R2", roleR2Decl)])]
        classes := [("K", kindKDecl), ("R1", roleR1Decl), ("R2", roleR2Decl)]
        gensets := [g]
        specializes_map := [("K", ["R1", "R2"])] } := by
  simp [buildSymbolTable, roleFamily, buildStep, kindKDecl, roleR1Decl, roleR2Decl, hT,
    truthyS, upsert, appendAt, lookupD, alookup]

/-- C1: Subkind checker. For the Kind `Person` with Subkinds `Man`, `Woman` and a
candidate genset (general `Person`, specifics all Subkind names): without
`disjoint` the checker emits the constraint violation and no found record; with
`disjoint` and the actual subkinds covered it emits exactly one found record
`{kind, specifics, genset name, is_complete}`; with two valid gensets it stops
at the first; and on scenario 1 the full suite returns exactly one Subkind
found record for Person with specifics Man, Woman and no diagnostics. -/
theorem claim_C1_subkind_checker :
    (∀ g : Decl, g.type = some "GeneralizationSet" → g.general = some "Person" →
      (∀ s ∈ g.specifics.getD [], s = "Man" ∨ s = "Woman") →
      "disjoint" ∉ g.modifiers.getD [] →
      checkSubkindPattern (subkindFamily g) (buildSymbolTable (subkindFamily g)) =
        .ok ([], [subkindViolErr (g.name.getD "N/A") (some "Person") (orO g.lineno (some 1))])) ∧
    (∀ g : Decl, g.type = some "GeneralizationSet" → g.general = some "Person" →
      (∀ s ∈ g.specifics.getD [], s = "Man" ∨ s = "Woman") →
      "disjoint" ∈ g.modifiers.getD [] →
      "Man" ∈ g.specifics.getD [] → "Woman" ∈ g.specifics.getD [] →
      checkSubkindPattern (subkindFamily g) (buildSymbolTable (subkindFamily g)) =
        .ok ([{ pattern := "Subkind Pattern", kind := some "Person"
                subkinds := some ["Man", "Woman"]
                genset_name := some (g.name.getD "N/A")
                is_complete := some (decide ("complete" ∈ g.modifiers.getD []))
                lineno := orO g.lineno (some 1) }], [])) ∧
    checkSubkindPattern subkindTwoGensetsAst (buildSymbolTable subkindTwoGensetsAst) =
      .ok ([{ pattern := "Subkind Pattern", kind := some "Person"
              subkinds := some ["Man", "Woman"], genset_name := some "G1"
              is_complete := some false, lineno := some 4 }], []) ∧
    runSemanticChecks scenario1Ast =
      .ok ([{ pattern := "Subkind Pattern", kind := some "Person"
              subkinds := some ["Man", "Woman"], genset_name := some "G"
              is_complete := some true, lineno := some 4 }], []) := by
  refine ⟨?_, ?_, by decide, by decide⟩
  · intro g hT hG hS hD
    have h1 : ¬ ∃ x ∈ pyset (g.specifics.getD []), ¬x = "Man" ∧ ¬x = "Woman" := by
      rintro ⟨x, hx, hnm, hnw⟩
      rcases hS x (List.mem_dedup.mp hx) with h | h
      · exact hnm h
      · exact hnw h
    have h2 : "disjoint" ∉ pyset (g.modifiers.getD []) := fun h => hD (List.mem_dedup.mp h)
    simp only [checkSubkindPattern, subkindFamily, Option.getD_some]
    rw [localCollect_subkindFamily g hT hG]
    simp [exceptMapAll, subkindKindStep, subkindGensetLoop, h1, h2, alookup, olookupD,
      lookupD, personKindDecl]
  · intro g hT hG hS hD hM hW
    have h1 : ¬ ∃ x ∈ g.specifics.getD [], ¬x = "Man" ∧ ¬x = "Woman" := by
      rintro ⟨x, hx, hnm, hnw⟩
      rcases hS x hx with h | h
      · exact hnm h
      · exact hnw h
    have hdd : (["Man", "Woman"] : List String).dedup = ["Man", "Woman"] := by decide
    have hsrt : List.foldr insertSorted [] (["Man", "Woman"] : List String) = ["Man", "Woman"] := by
      decide
    simp only [checkSubkindPattern, subkindFamily, Option.getD_some]
    rw [localCollect_subkindFamily g hT hG]
    simp [exceptMapAll, subkindKindStep, subkindGensetLoop, h1, hD, hM, hW, alookup, olookupD,
      lookupD, personKindDecl, getNames, getName, manSubDecl, womanSubDecl, pyset, pysorted,
      hdd, hsrt]

/-- Witness for C1 at the scenario-2 genset (violation branch) and the
scenario-1 genset (found branch). -/
theorem claim_C1_subkind_checker_witness :
    checkSubkindPattern (subkindFamily scenario2Genset)
        (buildSymbolTable (subkindFamily scenario2Genset)) =
      .ok ([], [subkindViolErr (scenario2Genset.name.getD "N/A") (some "Person")
                  (orO scenario2Genset.lineno (some 1))]) ∧
    checkSubkindPattern (subkindFamily scenario1Genset)
        (buildSymbolTable (subkindFamily scenario1Genset)) =
      .ok ([{ pattern := "Subkind Pattern", kind := some "Person"
              subkinds := some ["Man", "Woman"]
              genset_name := some (scenario1Genset.name.getD "N/A")
              is_complete := some (decide ("complete" ∈ scenario1Genset.modifiers.getD []))
              lineno := orO scenario1Genset.lineno (some 1) }], []) :=
  ⟨claim_C1_subkind_checker.1 scenario2Genset rfl rfl (by decide) (by decide),
   claim_C1_subkind_checker.2.1 scenario1Genset rfl rfl (by decide) (by decide) (by decide)
     (by decide)⟩

/-- Counterexample to C2 as stated: in `roleCexAst` the Kind `K` is specialized
by the two declared Roles `R1`, `R2`, and the genset `G2` (general `K`,
specifics all declared Roles, carrying `disjoint`, with two specifics covering
the actual Roles) is in the model — yet the checker emits no
constraint-violation diagnostic at all, because the earlier valid genset `G1`
produced a found record and broke the per-Kind loop before `G2` was examined. -/
theorem claim_C2_counterexample :
    checkRolePattern roleCexAst (buildSymbolTable roleCexAst) =
      ([{ pattern := "Role Pattern", kind := some "K", roles := some [some "R1", some "R2"],
          genset_name := some "G1", is_complete := some false, lineno := some 4 }], []) ∧
    roleCexG2 ∈ (buildSymbolTable roleCexAst).gensets ∧
    roleCexG2.general = some "K" ∧
    "disjoint" ∈ roleCexG2.modifiers.getD [] ∧
    2 ≤ (roleCexG2.specifics.getD []).length ∧
    (∀ s ∈ roleCexG2.specifics.getD [],
      s ∈ (lookupD "role" (buildSymbolTable roleCexAst).classes_by_stereotype []).map Prod.fst) ∧
    (lookupD "K" (buildSymbolTable roleCexAst).specializes_map []).filter
      (fun n => ((lookupD "role" (buildSymbolTable roleCexAst).classes_by_stereotype []).map
        Prod.fst).contains n) = ["R1", "R2"] := by
  decide

/-- C2 (amended): for the first qualifying Role genset of a Kind — here the
single genset of the `roleFamily` model — carrying `disjoint`, the violation
diagnostic is always emitted, and when the genset has two or more specifics
covering the actual Roles the found record is emitted as well: both outputs
together. -/
theorem claim_C2_amended_role_nonsuppression :
    ∀ g : Decl, g.type = some "GeneralizationSet" → g.general = some "K" →
      g.specifics.getD [] ≠ [] →
      (∀ s ∈ g.specifics.getD [], s = "R1" ∨ s = "R2") →
      "disjoint" ∈ g.modifiers.getD [] →
      (checkRolePattern (roleFamily g) (buildSymbolTable (roleFamily g))).2 =
        [roleViolErr (g.name.getD "N/A") "K" (orO g.lineno (some 1))] ∧
      ("R1" ∈ g.specifics.getD [] → "R2" ∈ g.specifics.getD [] →
        2 ≤ (pyset (g.specifics.getD [])).length →
        checkRolePattern (roleFamily g) (buildSymbolTable (roleFamily g)) =
          ([{ pattern := "Role Pattern", kind := some "K", roles := some [some "R1", some "R2"],
              genset_name := some (g.name.getD "N/A"),
              is_complete := some (decide ("complete" ∈ g.modifiers.getD [])),
              lineno := orO g.lineno (some 1) }],
           [roleViolErr (g.name.getD "N/A") "K" (orO g.lineno (some 1))])) := by
  intro g hT hG hNE hS hD
  have hne : ¬ (pyset (g.specifics.getD [])).isEmpty = true := by
    simp only [pyset, List.isEmpty_iff, List.dedup_eq_nil]
    exact hNE
  have h1 : ¬ ∃ x ∈ pyset (g.specifics.getD []), ¬x = "R1" ∧ ¬x = "R2" := by
    rintro ⟨x, hx, ha, hb⟩
    rcases hS x (List.mem_dedup.mp hx) with h | h
    · exact ha h
    · exact hb h
  have hdis : "disjoint" ∈ pyset (g.modifiers.getD []) := List.mem_dedup.mpr hD
  have hRR : pyset (["R1", "R2"] : List String) = ["R1", "R2"] := by decide
  constructor
  · simp only [checkRolePattern]
    rw [buildSymbolTable_roleFamily g hT]
    by_cases hcov : 2 ≤ (pyset (g.specifics.getD [])).length ∧
        "R1" ∈ pyset (g.specifics.getD []) ∧ "R2" ∈ pyset (g.specifics.getD [])
    · obtain ⟨hl, hm1, hm2⟩ := hcov
      simp [concatPairs, roleGensetLoop, lookupD, alookup, hG, hne, h1, hdis, hl, hm1, hm2,
        kindKDecl, hRR]
    · simp [concatPairs, roleGensetLoop, lookupD, alookup, hG, hne, h1, hdis, hcov,
        kindKDecl, hRR]
  · intro hM1 hM2 hL
    have hm1 : "R1" ∈ pyset (g.specifics.getD []) := List.mem_dedup.mpr hM1
    have hm2 : "R2" ∈ pyset (g.specifics.getD []) := List.mem_dedup.mpr hM2
    have hsrt : pysorted (["R1", "R2"] : List String) = ["R1", "R2"] := by decide
    have hcomp : ("complete" ∈ pyset (g.modifiers.getD [])) =
        ("complete" ∈ g.modifiers.getD []) := propext List.mem_dedup
    simp only [checkRolePattern]
    rw [buildSymbolTable_roleFamily g hT]
    simp [concatPairs, roleGensetLoop, lookupD, alookup, hG, hne, h1, hdis, hL, hm1, hm2,
      kindKDecl, hRR, hsrt, hcomp]

/-- Witness for the amended C2 at the concrete disjoint genset `roleCexG2`. -/
theorem claim_C2_amended_witness :
    (checkRolePattern (roleFamily roleCexG2) (buildSymbolTable (roleFamily roleCexG2))).2 =
      [roleViolErr (roleCexG2.name.getD "N/A") "K" (orO roleCexG2.lineno (some 1))] ∧
    checkRolePattern (roleFamily roleCexG2) (buildSymbolTable (roleFamily roleCexG2)) =
      ([{ pattern := "Role Pattern", kind := some "K", roles := some [some "R1", some "R2"],
          genset_name := some (roleCexG2.name.getD "N/A"),
          is_complete := some (decide ("complete" ∈ roleCexG2.modifiers.getD [])),
          lineno := orO roleCexG2.lineno (some 1) }],
       [roleViolErr (roleCexG2.name.getD "N/A") "K" (orO roleCexG2.lineno (some 1))]) :=
  ⟨(claim_C2_amended_role_nonsuppression roleCexG2 rfl rfl (by decide) (by decide)
      (by decide)).1,
   (claim_C2_amended_role_nonsuppression roleCexG2 rfl rfl (by decide) (by decide)
      (by decide)).2 (by decide) (by decide) (by decide)⟩

/-- Counterexample to C3 as stated: in `phaseCexAst` the genset `G` has a
declared Kind `Doc` as general, two declared Phase names as specifics and no
`disjoint` modifier, yet the checker (and the whole suite) emits neither a
violation diagnostic nor a found record, because no Phase actually
specializes `Doc` and the checker scans Kind-first. -/
theorem claim_C3_counterexample :
    checkPhasePattern phaseCexAst (buildSymbolTable phaseCexAst) = .ok ([], []) ∧
    runSemanticChecks phaseCexAst = .ok ([], []) ∧
    docKindDecl ∈ phaseCexAst.declarations.getD [] ∧
    docKindDecl.stereotype = some "kind" ∧
    docKindDecl.name = some "Doc" ∧
    phaseCexG ∈ phaseCexAst.declarations.getD [] ∧
    phaseCexG.type = some "GeneralizationSet" ∧
    phaseCexG.general = some "Doc" ∧
    phaseCexG.specifics = some ["Draft", "Final"] ∧
    "disjoint" ∉ phaseCexG.modifiers.getD [] ∧
    (∃ d ∈ phaseCexAst.declarations.getD [],
      d.stereotype = some "phase" ∧ d.name = some "Draft") ∧
    (∃ d ∈ phaseCexAst.declarations.getD [],
      d.stereotype = some "phase" ∧ d.name = some "Final") := by
  decide

/-- C3 (amended): the Phase checker is Kind-first — only for a Kind with at
least two actual Phase specializers are its gensets examined. In the
`phaseFamily` model (Kind `Doc`, Phases `Draft`, `Final` specializing it), a
candidate genset lacking `disjoint` yields the violation diagnostic and no
found record, while a disjoint one with at least two specifics covering the
actual Phases yields the found record `{kind, phases, is_complete}`. -/
theorem claim_C3_amended_phase_checker :
    (∀ g : Decl, g.type = some "GeneralizationSet" → g.general = some "Doc" →
      (∀ s ∈ g.specifics.getD [], s = "Draft" ∨ s = "Final") →
      "disjoint" ∉ g.modifiers.getD [] →
      checkPhasePattern (phaseFamily g) (buildSymbolTable (phaseFamily g)) =
        .ok ([], [phaseViolErr (g.name.getD "N/A") (some "Doc") (orO g.lineno (some 1))])) ∧
    (∀ g : Decl, g.type = some "GeneralizationSet" → g.general = some "Doc" →
      (∀ s ∈ g.specifics.getD [], s = "Draft" ∨ s = "Final") →
      "disjoint" ∈ g.modifiers.getD [] →
      "Draft" ∈ g.specifics.getD [] → "Final" ∈ g.specifics.getD [] →
      2 ≤ (pyset (g.specifics.getD [])).length →
      checkPhasePattern (phaseFamily g) (buildSymbolTable (phaseFamily g)) =
        .ok ([{ pattern := "Phase Pattern", kind := some "Doc"
                phases := some ["Draft", "Final"]
                is_disjoint := some true
                is_complete := some (decide ("complete" ∈ g.modifiers.getD []))
                lineno := orO g.lineno (some 1) }], [])) := by
  constructor
  · intro g hT hG hS hD
    have h1 : ¬ ∃ x ∈ pyset (g.specifics.getD []), ¬x = "Draft" ∧ ¬x = "Final" := by
      rintro ⟨x, hx, ha, hb⟩
      rcases hS x (List.mem_dedup.mp hx) with h | h
      · exact ha h
      · exact hb h
    have h2 : "disjoint" ∉ pyset (g.modifiers.getD []) := fun h => hD (List.mem_dedup.mp h)
    simp only [checkPhasePattern, phaseFamily, Option.getD_some]
    rw [localCollect_phaseFamily g hT hG]
    simp [exceptMapAll, phaseKindStep, phaseGensetLoop, h1, h2, alookup, olookupD,
      lookupD, docKindDecl]
  · intro g hT hG hS hD hM hW hL
    have h1 : ¬ ∃ x ∈ g.specifics.getD [], ¬x = "Draft" ∧ ¬x = "Final" := by
      rintro ⟨x, hx, ha, hb⟩
      rcases hS x hx with h | h
      · exact ha h
      · exact hb h
    have hL' : 2 ≤ (g.specifics.getD []).dedup.length := by
      simpa [pyset] using hL
    have hdd : (["Draft", "Final"] : List String).dedup = ["Draft", "Final"] := by decide
    have hsrt : List.foldr insertSorted [] (["Draft", "Final"] : List String) =
        ["Draft", "Final"] := by decide
    simp only [checkPhasePattern, phaseFamily, Option.getD_some]
    rw [localCollect_phaseFamily g hT hG]
    simp [exceptMapAll, phaseKindStep, phaseGensetLoop, h1, hD, hM, hW, hL', alookup, olookupD,
      lookupD, docKindDecl, getNames, getName, draftPhaseDecl, finalPhaseDecl, pyset, pysorted,
      hdd, hsrt]

/-- Witness for the amended C3: violation branch at `phaseCexG` (no disjoint)
and found branch at a concrete disjoint genset. -/
theorem claim_C3_amended_witness :
    checkPhasePattern (phaseFamily phaseCexG) (buildSymbolTable (phaseFamily phaseCexG)) =
      .ok ([], [phaseViolErr (phaseCexG.name.getD "N/A") (some "Doc")
                  (orO phaseCexG.lineno (some 1))]) ∧
    checkPhasePattern (phaseFamily phaseOkGenset)
        (buildSymbolTable (phaseFamily phaseOkGenset)) =
      .ok ([{ pattern := "Phase Pattern", kind := some "Doc"
              phases := some ["Draft", "Final"]
              is_disjoint := some true
              is_complete := some (decide ("complete" ∈ phaseOkGenset.modifiers.getD []))
              lineno := orO phaseOkGenset.lineno (some 1) }], []) :=
  ⟨claim_C3_amended_phase_checker.1 phaseCexG rfl rfl (by decide) (by decide),
   claim_C3_amended_phase_checker.2 phaseOkGenset rfl rfl (by decide) (by decide) (by decide)
     (by decide) (by decide)⟩

/-- C4: Relator checker. With Roles A, B on distinct Kinds, a Relator mediating
both and a material relation with endpoints exactly A and B, exactly one found
record names the relator, the pair and the material relation; removing the
material relation yields exactly one incomplete diagnostic naming the missing
material relation and no found record. -/
theorem claim_C4_relator_pattern :
    checkRelatorPattern relatorFullAst (buildSymbolTable relatorFullAst) =
      ([{ pattern := "Relator Pattern", roles := some [some "A", some "B"],
          relator_name := some "R", material_relation := some "worksFor",
          lineno := some 5 }], []) ∧
    checkRelatorPattern relatorNoMaterialAst (buildSymbolTable relatorNoMaterialAst) =
      ([], [relatorIncompleteErr (some "A") (some "B")
              ["relação @material externa"] (some 3)]) := by
  decide

/-- Counterexample to C5 as stated: with the stereotype tags removed from the
relator body members, the targets A and B are not in the mediated set (it is
empty), and the checker reports a missing mediating relator instead of the
found record that the tagged variant produces. -/
theorem claim_C5_counterexample :
    relatorMediatedSet relatorUntaggedDecl
        (relatorCollect (relatorUntaggedAst.declarations.getD [])).mediated = [] ∧
    (∀ t ∈ relatorTerminations relatorUntaggedDecl, t.stereotype = none ∧
      (orS t.target t.target_class).isSome) ∧
    relatorMediatedSet relatorRDecl
        (relatorCollect (relatorFullAst.declarations.getD [])).mediated =
      [some "A", some "B"] ∧
    checkRelatorPattern relatorUntaggedAst (buildSymbolTable relatorUntaggedAst) =
      ([], [relatorIncompleteErr (some "A") (some "B")
              ["Relator com mediação"] (some 3)]) := by
  decide

/-- C5 (amended): a body member contributes to a Relator's mediated candidates
only when its stereotype is exactly "mediation"; an untagged member is ignored,
so the untagged scenario yields the missing-mediation diagnostic. -/
theorem claim_C5_amended_mediation_requires_tag :
    (∀ (rd : Decl) (ents : List (Option String × Decl)) (x : Option String),
      x ∈ relatorMediatedSet rd ents →
      ∃ t ∈ relatorTerminations rd,
        t.stereotype = some "mediation" ∧ orS t.target t.target_class = x) ∧
    checkRelatorPattern relatorUntaggedAst (buildSymbolTable relatorUntaggedAst) =
      ([], [relatorIncompleteErr (some "A") (some "B")
              ["Relator com mediação"] (some 3)]) := by
  constructor
  · intro rd ents x hx
    obtain ⟨t, ht, hf⟩ := List.mem_filterMap.mp hx
    refine ⟨t, ht, ?_⟩
    split at hf
    · rename_i hst
      dsimp only at hf
      split at hf
      · cases hf
        exact ⟨hst, rfl⟩
      · cases hf
    · cases hf
  · decide

/-- Witness for the amended C5 at the tagged relator of the full scenario. -/
theorem claim_C5_amended_witness :
    ∃ t ∈ relatorTerminations relatorRDecl,
      t.stereotype = some "mediation" ∧ orS t.target t.target_class = some "A" :=
  claim_C5_amended_mediation_requires_tag.1 relatorRDecl
    (relatorCollect (relatorFullAst.declarations.getD [])).mediated (some "A") (by decide)

/-- Counterexample to C6 as stated: the RoleMixin disjoint-missing diagnostic
has type "Semantic Error (Mandatory Constraint)", which matches neither the
coercion-section filter nor the incomplete-section filter, so the diagnostic
is dropped from both diagnostic sections of the report. -/
theorem claim_C6_counterexample :
    runSemanticChecks c6CexAst = .ok ([], [rmDisjointErr "G" "RM" 4]) ∧
    isCoercionDiag (rmDisjointErr "G" "RM" 4) = false ∧
    isIncompleteDiag (rmDisjointErr "G" "RM" 4) = false ∧
    coercionSection [rmDisjointErr "G" "RM" 4] = [] ∧
    incompleteSection [rmDisjointErr "G" "RM" 4] = [] := by
  decide

/-- C6 (amended): every diagnostic produced by `run_semantic_checks` is
rendered in at most one of the two diagnostic sections; it lands in exactly
one unless its type is the RoleMixin checker's
"Semantic Error (Mandatory Constraint)" or "Semantic Error (Type Violation)",
which match neither section filter and are silently dropped. -/
theorem claim_C6_amended_partition :
    ∀ (ast : Ast) (f : List Found) (errs : List Err),
      runSemanticChecks ast = .ok (f, errs) →
      ∀ e ∈ errs,
        (isCoercionDiag e = true ∧ isIncompleteDiag e = false) ∨
        (isCoercionDiag e = false ∧ isIncompleteDiag e = true) ∨
        ((e.type = "Semantic Error (Mandatory Constraint)" ∨
          e.type = "Semantic Error (Type Violation)") ∧
         isCoercionDiag e = false ∧ isIncompleteDiag e = false) := by
  intro ast f errs h e he
  rcases runSemanticChecks_err h e he with ht | ht | ht | ht | ht | ht | ht | ht | ht | ht <;>
    simp only [isCoercionDiag, isIncompleteDiag, ht] <;> decide

/-- Witness for the amended C6 at the scenario-1 run and the C6 counterexample
run: the subkind violation of scenario 2 lands in the coercion section only,
the RoleMixin constraint diagnostic in neither. -/
theorem claim_C6_amended_witness :
    ((isCoercionDiag (rmDisjointErr "G" "RM" 4) = true ∧
      isIncompleteDiag (rmDisjointErr "G" "RM" 4) = false) ∨
     (isCoercionDiag (rmDisjointErr "G" "RM" 4) = false ∧
      isIncompleteDiag (rmDisjointErr "G" "RM" 4) = true) ∨
     (((rmDisjointErr "G" "RM" 4).type = "Semantic Error (Mandatory Constraint)" ∨
       (rmDisjointErr "G" "RM" 4).type = "Semantic Error (Type Violation)") ∧
      isCoercionDiag (rmDisjointErr "G" "RM" 4) = false ∧
      isIncompleteDiag (rmDisjointErr "G" "RM" 4) = false)) :=
  claim_C6_amended_partition c6CexAst [] [rmDisjointErr "G" "RM" 4] (by decide)
    (rmDisjointErr "G" "RM" 4) (by decide)

/-- C7: totality of the engine. A missing or empty declarations list yields two
empty collections; and for any model whose declarations all carry a name —
optional fields (lineno, body, modifiers, specifics) may be absent throughout —
`run_semantic_checks` returns normally. -/
theorem claim_C7_totality :
    runSemanticChecks { declarations := none } = .ok ([], []) ∧
    runSemanticChecks { declarations := some [] } = .ok ([], []) ∧
    ∀ ast : Ast, (∀ d ∈ ast.declarations.getD [], d.name.isSome) →
      ∃ res, runSemanticChecks ast = .ok res := by
  refine ⟨by decide, by decide, ?_⟩
  intro ast h
  obtain ⟨r1, h1⟩ := checkSubkindPattern_ok ast (buildSymbolTable ast) h
  obtain ⟨f1, e1⟩ := r1
  obtain ⟨r3, h3⟩ := checkPhasePattern_ok ast (buildSymbolTable ast) h
  obtain ⟨f3, e3⟩ := r3
  cases hx : runSemanticChecks ast with
  | ok r => exact ⟨r, rfl⟩
  | error m =>
    exfalso
    unfold runSemanticChecks at hx
    dsimp only at hx
    rw [h1] at hx
    simp only [bindOk] at hx
    rw [h3] at hx
    simp only [bindOk] at hx
    simp at hx

/-- Witness for C7 at scenario 1 (all declarations named, several optional
fields absent). -/
theorem claim_C7_totality_witness :
    ∃ res, runSemanticChecks scenario1Ast = .ok res :=
  claim_C7_totality.2.2 scenario1Ast (by decide)

/-- C8: Mode checker. When the body scan finds both a characterization and an
externalDependence member whose targets resolve to the same declared Kind, the
per-Mode step emits the non-blocking coercion warning and still records the
Mode Pattern found record — never only one of them; on the concrete scenario
the checker returns exactly this pair. -/
theorem claim_C8_mode_warning_nonblocking :
    (∀ (km : List (String × Decl)) (mn : Option String) (md : Decl)
       (c ex : Member) (t : Option String),
      (modeBodyRelations md).foldl modeScanStep (none, none) = (some c, some ex) →
      modeTarget c = t → modeTarget ex = t → kindsMapContains km t = true →
      processMode km (mn, md) =
        ([{ pattern := "Mode Pattern", mode_name := mn, characterizes := t,
            depends_on := t, lineno := some (modeLineno md) }],
         [modeWarnErr mn t (modeLineno md)])) ∧
    checkModePattern c8ScenarioAst (buildSymbolTable c8ScenarioAst) =
      ([{ pattern := "Mode Pattern", mode_name := some "M", characterizes := some "K",
          depends_on := some "K", lineno := some 2 }],
       [modeWarnErr (some "M") (some "K") 2]) := by
  constructor
  · intro km mn md c ex t hscan hc he hk
    unfold processMode
    dsimp only
    rw [hscan]
    dsimp only
    rw [hc, he]
    simp [hk]
  · decide

/-- Witness for C8 at the concrete scenario Mode. -/
theorem claim_C8_witness :
    processMode [("K", c8KindDecl)] (some "M", c8ModeDecl) =
      ([{ pattern := "Mode Pattern", mode_name := some "M", characterizes := some "K",
          depends_on := some "K", lineno := some (modeLineno c8ModeDecl) }],
       [modeWarnErr (some "M") (some "K") (modeLineno c8ModeDecl)]) :=
  claim_C8_mode_warning_nonblocking.1 [("K", c8KindDecl)] (some "M") c8ModeDecl
    { stereotype := some "characterization", target := some "K" }
    { stereotype := some "externalDependence", target := some "K" }
    (some "K") (by decide) (by decide) (by decide) (by decide)

/-- C9: RoleMixin checker. A RoleMixin specialized by at least one declared
Role but with no genset whose general is that RoleMixin yields exactly one
incomplete (mandatory genset missing) diagnostic, no found record, and the
per-RoleMixin processing stops there; scenario 3 through the full suite yields
exactly that one diagnostic and an empty found list. -/
theorem claim_C9_rolemixin_missing_genset :
    (∀ (table : Table) (arn : List String) (rm : String) (rmDecl : Decl),
      (lookupD rm table.specializes_map []).filter (fun r => arn.contains r) ≠ [] →
      table.gensets.filter (fun gdecl => gdecl.general = some rm) = [] →
      processRoleMixin table arn (rm, rmDecl) =
        ([], [rmMissingGensetErr rm
                ((lookupD rm table.specializes_map []).filter (fun r => arn.contains r))
                (rmSafeLineno rmDecl.lineno none)])) ∧
    runSemanticChecks scenario3Ast =
      .ok ([], [rmMissingGensetErr "Customer" ["A", "B"] 1]) := by
  constructor
  · intro table arn rm rmDecl hsr hgs
    unfold processRoleMixin
    dsimp only
    rw [hgs]
    obtain ⟨x, hx⟩ := List.exists_mem_of_ne_nil _ hsr
    have hx' := List.mem_filter.mp hx
    simp [hsr, List.isEmpty_iff]
    exact ⟨x, hx'.1, by simpa using hx'.2⟩
  · decide

/-- Witness for C9 at scenario 3's RoleMixin. -/
theorem claim_C9_witness :
    processRoleMixin (buildSymbolTable scenario3Ast) ["A", "B"]
        ("Customer", customerRMDecl) =
      ([], [rmMissingGensetErr "Customer"
              ((lookupD "Customer" (buildSymbolTable scenario3Ast).specializes_map []).filter
                (fun r => (["A", "B"] : List String).contains r))
              (rmSafeLineno customerRMDecl.lineno none)]) :=
  claim_C9_rolemixin_missing_genset.1 (buildSymbolTable scenario3Ast) ["A", "B"]
    "Customer" customerRMDecl (by decide) (by decide)

/-- C10: duplicate class names in `build_symbol_table`. The second declaration
of `X` wins in both class indexes, while `specializes_map` keeps one edge per
occurrence, so the edge `S → X` contributed by the shadowed first declaration
survives although that declaration is gone from the class index. -/
theorem claim_C10_duplicate_names :
    buildSymbolTable dupAst =
      { classes_by_stereotype := [("kind", [("X", dupDecl2)])]
        classes := [("X", dupDecl2)]
        gensets := []
        specializes_map := [("S", ["X"]), ("T", ["X"])] } ∧
    dupDecl1 ≠ dupDecl2 ∧
    (∀ p ∈ (buildSymbolTable dupAst).classes, p.2 ≠ dupDecl1) ∧
    (∀ st ∈ (buildSymbolTable dupAst).classes_by_stereotype,
      ∀ p ∈ st.2, p.2 ≠ dupDecl1) ∧
    ("S", ["X"]) ∈ (buildSymbolTable dupAst).specializes_map := by
  decide

end Tonto
